import Mathlib

/-!
# Platform layer of the frameless-window helper: `src/core/utils_win32.cpp`

A shallow embedding of the Win32 utility functions and the properties proved about them.

* The operating system is a read-only oracle `OS`: one field per system call the code makes,
  giving the answer of that call.  The answers do not change while a function runs.
* The function-local `static` variables of the C++ code (the `tried` flags and the cached
  function pointers) are the fields of `Proc`; every embedded function is a state transformer
  `Op α = Proc → α × Proc`.
* Every system call, library load, symbol lookup and registry read appends an `Event` to
  `Proc.log`, so "the code never calls X" is a statement about the log.
* `quint32`/`UINT`/`DWORD` values are `Nat` reduced modulo `2^32` where the C++ converts,
  `int`/`HRESULT`/`BOOL` values are `Int`; the `int` sum of line 659 wraps modulo `2^32`.
* `qreal` is `double`: a value is kept as the fraction it stands for, and every arithmetic
  operation rounds its exact result to the nearest `double` (53-bit significand, ties to
  even), as IEEE 754 arithmetic without extended intermediate precision does
  (`QReal.toDouble`).
* The functions are embedded as compiled with `QT_NO_DEBUG` (a release build), where
  `Q_ASSERT(cond)` expands to nothing.  What a build without `QT_NO_DEBUG` does at an
  assertion that fails is modelled by `Q_ASSERT` and `Outcome` further down.
* Diagnostics (`qWarning()` and the formatting of system error messages) are not modelled.
* The operands of `a + b` with two calls are run left to right; the version predicates are
  those of the build for Qt 5.9 or later.
-/

namespace FramelessHelper

/-! ## Basic types -/

/-- Window identifier (`WId`); `0` is the null handle. -/
abbrev WId := Nat

/-- The system libraries the code loads with `LoadLibraryExW`. -/
inductive Dll
  | User32 | UxTheme | DwmApi | SHCore
  deriving DecidableEq, Repr

/-- The system entry points the code calls, directly or through a resolved pointer, and the
two places where `updateQtInternalFrameMargins` hands the margins to Qt. -/
inductive Api
  | GetSystemMetricsForDpi | GetSystemMetrics
  | ShouldAppsUseDarkMode | SystemParametersInfoW
  | DwmIsCompositionEnabled | DwmExtendFrameIntoClientArea
  | DwmGetColorizationColor | DwmGetWindowAttribute
  | GetDpiForWindow | GetSystemDpiForProcess | GetDpiForSystem | GetDpiForMonitor
  | MonitorFromWindow | MonitorFromPoint | GetCurrentProcess | GetCursorPos
  | GetDC | GetDeviceCaps | ReleaseDC
  | IsMinimized | IsMaximized | GetWindowRect | GetMonitorInfoW | GetWindowPlacement
  | GetWindowDpiAwarenessContext | GetThreadDpiAwarenessContext
  | GetAwarenessFromDpiAwarenessContext | GetProcessDpiAwareness | IsProcessDPIAware
  | SetWindowPos | GetSystemMenu | SetMenuItemInfoW | SetMenuDefaultItem
  | TrackPopupMenu | PostMessageW | GetWindowLongPtrW | SetWindowLongPtrW
  | QWindow_setProperty | QPlatformWindow_setCustomMargins
  deriving DecidableEq, Repr

/-- The two registry locations read through `QSettings`:
`Constants::kPersonalizeRegistryKey` and `Constants::kDwmRegistryKey`. -/
inductive RegKey
  | Personalize | Dwm
  deriving DecidableEq, Repr

/-- The registry value names the code reads. -/
inductive RegName
  | AppsUseLightTheme | ColorPrevalence | Composition | ColorizationColor
  deriving DecidableEq, Repr

/-- What a registry value holds, as far as `QVariant::toUInt(&ok)` can tell: a value that
converts to the unsigned integer `n`, or one that does not convert (`ok = false`, result 0). -/
inductive RegData
  | uint (n : Nat)
  | notConvertible
  deriving DecidableEq, Repr

/-- `RECT`: left, top, right, bottom. -/
structure RECT where
  left : Int
  top : Int
  right : Int
  bottom : Int
  deriving DecidableEq, Repr

/-- `QOperatingSystemVersion` of the running system (its type is Windows). -/
structure QOperatingSystemVersion where
  major : Nat
  minor : Nat
  micro : Nat
  deriving DecidableEq, Repr

/-- `enum class SystemMetric`. -/
inductive SystemMetric
  | ResizeBorderThickness | CaptionHeight | TitleBarHeight | FrameBorderThickness
  deriving DecidableEq, Repr

/-- `enum class SystemTheme`. -/
inductive SystemTheme
  | Light | Dark | HighContrast
  deriving DecidableEq, Repr

/-- `enum class ColorizationArea`. -/
inductive ColorizationArea
  | None | StartMenu_TaskBar_ActionCenter | TitleBar_WindowBorder | All
  deriving DecidableEq, Repr

/-- `QColor` as its four 8-bit channels. -/
structure QColor where
  red : Nat
  green : Nat
  blue : Nat
  alpha : Nat
  deriving DecidableEq, Repr

/-- Compile-time constants of the project whose header is not part of the sources at hand;
they are parameters of the functions that use them. -/
structure Constants where
  kDefaultResizeBorderThicknessClassic : Nat
  kDefaultResizeBorderThicknessAero : Nat
  kDefaultCaptionHeight : Nat
  _DWMWA_VISIBLE_FRAME_BORDER_THICKNESS : Nat
  deriving DecidableEq, Repr

/-! ## The operating system as an oracle -/

/-- The answers of the operating system.  `isWin8OrGreater`, `isWin8Point1OrGreater` and
`isWin10OrGreater` are helper predicates declared in a header that is not part of the sources
at hand; their results are taken as given. -/
structure OS where
  version : QOperatingSystemVersion
  isWin8OrGreater : Bool
  isWin8Point1OrGreater : Bool
  isWin10OrGreater : Bool
  /-- whether `LoadLibraryExW(dll, nullptr, LOAD_LIBRARY_SEARCH_SYSTEM32)` returns a module -/
  LoadLibraryExW : Dll → Bool
  /-- whether `GetProcAddress(dll, symbol)` returns a non-null pointer -/
  GetProcAddress : Dll → Api → Bool
  /-- result of `QSettings(key).value(name, ...)`, `none` when the value is absent -/
  registry : RegKey → RegName → Option RegData
  GetSystemMetricsForDpi : Int → Nat → Int
  GetSystemMetrics : Int → Int
  /-- the `BOOL` returned by UxTheme ordinal 132 -/
  ShouldAppsUseDarkMode : Int
  /-- `SystemParametersInfoW(SPI_GETHIGHCONTRAST, ...)`: `none` when it returns `FALSE`,
  otherwise the `dwFlags` it stores -/
  SystemParametersInfoW : Option Nat
  /-- the `HRESULT` and the `BOOL` stored through the out-parameter -/
  DwmIsCompositionEnabled : Int × Int
  /-- the `HRESULT`, by window and margin -/
  DwmExtendFrameIntoClientArea : WId → Int → Int
  /-- the `HRESULT` and the colour stored through the out-parameter -/
  DwmGetColorizationColor : Int × Nat
  /-- the `HRESULT` and the value stored, by window and attribute -/
  DwmGetWindowAttribute : WId → Nat → Int × Nat
  GetDpiForWindow : WId → Nat
  GetCurrentProcess : Nat
  GetSystemDpiForProcess : Nat → Nat
  GetDpiForSystem : Nat
  /-- monitor handle by window and flag (`0` is null) -/
  MonitorFromWindow : WId → Nat → Nat
  /-- the `HRESULT`, `dpiX` and `dpiY`, by monitor -/
  GetDpiForMonitor : Nat → Int × Nat × Nat
  /-- `none` when `GetCursorPos` returns `FALSE` -/
  GetCursorPos : Option (Int × Int)
  MonitorFromPoint : Int × Int → Nat
  /-- `GetDC(nullptr)` (`0` is null) -/
  GetDC : Nat
  GetDeviceCaps : Nat → Int → Int
  ReleaseDC : Nat → Int
  IsMinimized : WId → Int
  IsMaximized : WId → Int
  /-- `none` when `GetWindowRect` returns `FALSE` -/
  GetWindowRect : WId → Option RECT
  /-- `rcMonitor`, `none` when `GetMonitorInfoW` returns `FALSE` -/
  GetMonitorInfoW : Nat → Option RECT
  /-- `showCmd`, `none` when `GetWindowPlacement` returns `FALSE` -/
  GetWindowPlacement : WId → Option Nat
  /-- context handle (`0` is null) -/
  GetWindowDpiAwarenessContext : WId → Nat
  GetThreadDpiAwarenessContext : Nat
  GetAwarenessFromDpiAwarenessContext : Nat → Int
  /-- the `HRESULT` and the awareness stored -/
  GetProcessDpiAwareness : Int × Int
  IsProcessDPIAware : Int
  SetWindowPos : WId → Int
  /-- menu handle (`0` is null) -/
  GetSystemMenu : WId → Nat
  /-- the `BOOL` returned, by menu, item and state written -/
  SetMenuItemInfoW : Nat → Nat → Nat → Int
  SetMenuDefaultItem : Nat → Int
  /-- the command returned, by menu, flags, x, y and window -/
  TrackPopupMenu : Nat → Nat → Int → Int → WId → Int
  /-- the `BOOL` returned, by window and command -/
  PostMessageW : WId → Int → Int
  /-- the style word of the window -/
  GetWindowLongPtrW : WId → Int
  /-- the previous value returned (`0` on failure), by window and style written -/
  SetWindowLongPtrW : WId → Int → Int
  /-- `QGuiApplication::isRightToLeft()` -/
  isRightToLeft : Bool

/-! ## Process state -/

/-- One observable interaction with the system. -/
inductive Event
  | LoadLibraryExW (dll : Dll)
  | GetProcAddress (dll : Dll) (symbol : Api)
  | call (api : Api) (args : List Int)
  | registryValue (key : RegKey) (name : RegName)
  deriving DecidableEq, Repr

/-- The pair of function-local statics `tried` / `XxxFunc` of a function that resolves one
entry point; `func = true` means the pointer is non-null. -/
structure Slot where
  tried : Bool
  func : Bool
  deriving DecidableEq, Repr

/-- The function-local statics of `Utils::getDPIForWindow`. -/
structure DpiStatics where
  tried : Bool
  GetDpiForWindowFunc : Bool
  GetSystemDpiForProcessFunc : Bool
  GetDpiForSystemFunc : Bool
  GetDpiForMonitorFunc : Bool
  deriving DecidableEq, Repr

/-- The function-local statics of `Utils::getDPIAwarenessForWindow`. -/
structure AwarenessStatics where
  tried : Bool
  GetWindowDpiAwarenessContextFunc : Bool
  GetThreadDpiAwarenessContextFunc : Bool
  GetAwarenessFromDpiAwarenessContextFunc : Bool
  GetProcessDpiAwarenessFunc : Bool
  deriving DecidableEq, Repr

/-- The state of the process: the statics of each function, and the log of system
interactions so far (oldest first). -/
structure Proc where
  sGetSystemMetricsForDpi : Slot
  sShouldAppsUseDarkMode : Slot
  sIsCompositionEnabled : Slot
  sUpdateFrameMargins : Slot
  sGetColorizationColor : Slot
  sGetWindowVisibleFrameBorderThickness : Slot
  sGetDPIForWindow : DpiStatics
  sGetDPIAwarenessForWindow : AwarenessStatics
  log : List Event
  deriving DecidableEq, Repr

/-- The state at process start: nothing tried, every pointer null, empty log. -/
def Proc.start : Proc :=
  { sGetSystemMetricsForDpi := ⟨false, false⟩
    sShouldAppsUseDarkMode := ⟨false, false⟩
    sIsCompositionEnabled := ⟨false, false⟩
    sUpdateFrameMargins := ⟨false, false⟩
    sGetColorizationColor := ⟨false, false⟩
    sGetWindowVisibleFrameBorderThickness := ⟨false, false⟩
    sGetDPIForWindow := ⟨false, false, false, false, false⟩
    sGetDPIAwarenessForWindow := ⟨false, false, false, false, false⟩
    log := [] }

/-- A computation that reads and updates the process state. -/
def Op (α : Type) : Type := Proc → α × Proc

/-- Run a computation from a state. -/
def Op.run {α : Type} (x : Op α) (s : Proc) : α × Proc := x s

instance : Monad Op where
  pure a := fun s => (a, s)
  bind x f := fun s => f (x s).1 (x s).2

/-- Record one interaction with the system. -/
def emit (e : Event) : Op Unit := fun s => ((), { s with log := s.log ++ [e] })

/-- The events a run adds to the log (the log only grows, so this drops the old prefix). -/
def newEvents (before after : Proc) : List Event := after.log.drop before.log.length

/-! ## Machine arithmetic -/

/-- Conversion to `quint32` / `UINT` / `DWORD`. -/
def toU32 (i : Int) : Nat := (i % 4294967296).toNat

/-- Conversion to `int`. -/
def toI32 (i : Int) : Int := (i + 2147483648) % 4294967296 - 2147483648

/-- `qreal` (`double`) values, each kept as the fraction `num / den` it stands for (`den = 0`
stands for the result of a division by zero).  The fraction is not kept in lowest terms. -/
structure QReal where
  num : Int
  den : Nat
  deriving Repr

namespace QReal

/-- How often `a` is doubled until `2^52 * d ≤ a`, the search bounded by `fuel`. -/
def scaleUp : Nat → Nat → Nat → Nat
  | 0, _, _ => 0
  | fuel + 1, a, d => if a < 4503599627370496 * d then scaleUp fuel (2 * a) d + 1 else 0

/-- How often `d` is doubled until `a < 2^53 * d`, the search bounded by `fuel`. -/
def scaleDown : Nat → Nat → Nat → Nat
  | 0, _, _ => 0
  | fuel + 1, a, d => if 9007199254740992 * d ≤ a then scaleDown fuel a (2 * d) + 1 else 0

/-- The integer nearest to `n / d`, a tie going to the even neighbour. -/
def roundHalfEven (n d : Nat) : Nat :=
  if 2 * (n % d) < d then n / d
  else if d < 2 * (n % d) then n / d + 1
  else if (n / d) % 2 = 0 then n / d
  else n / d + 1

/-- The `double` nearest to a fraction, ties to even (the rounding of IEEE 754 binary64 in its
default mode): the magnitude `a / d` is scaled by a power of two into `[2^52, 2^53)`, rounded
to an integer there and scaled back (`norm_spec` shows that the two searches always reach
that range).  The exponent is not bounded; the values of this program
(32-bit integers, their quotients by 96 and by 2, products and quotients of two of those) are
far from the overflow and the subnormal range of `double`. -/
def toDouble (q : QReal) : QReal :=
  if q.num = 0 ∨ q.den = 0 then q
  else
    let a := q.num.natAbs
    let ku := scaleUp (q.den + 52) a q.den
    let kd := scaleDown a a q.den
    ⟨q.num.sign * ((roundHalfEven (a * 2 ^ ku) (q.den * 2 ^ kd) * 2 ^ kd : Nat) : Int), 2 ^ ku⟩

/-- `static_cast<qreal>` of an integer: exact, every integer converted in this program being a
32-bit value. -/
def ofInt (i : Int) : QReal := ⟨i, 1⟩

/-- Product of two `double`s. -/
def mul (a b : QReal) : QReal := toDouble ⟨a.num * b.num, a.den * b.den⟩

/-- Quotient of two `double`s. -/
def div (a b : QReal) : QReal :=
  toDouble ⟨a.num * b.den * b.num.sign, a.den * b.num.natAbs⟩

/-- Sum of two `double`s. -/
def add (a b : QReal) : QReal := toDouble ⟨a.num * b.den + b.num * a.den, a.den * b.den⟩

/-- Difference of two `double`s. -/
def sub (a b : QReal) : QReal := toDouble ⟨a.num * b.den - b.num * a.den, a.den * b.den⟩

/-- Comparison `a <= b`. -/
def le (a b : QReal) : Bool := decide (a.num * b.den ≤ b.num * a.den)

/-- Comparison `a == b`. -/
def eq (a b : QReal) : Bool := decide (a.num * b.den = b.num * a.den)

/-- Conversion to `int`: truncation toward zero. -/
def trunc (a : QReal) : Int := Int.tdiv a.num a.den

/-- The constant `0.5`. -/
def half : QReal := ⟨1, 2⟩

/-- A non-negative value between `lo / 2^Q` and `hi / 2^Q`. -/
def Within (q : QReal) (lo hi Q : Nat) : Prop :=
  0 < q.den ∧ 0 ≤ q.num ∧ (lo : Int) * q.den ≤ q.num * 2 ^ Q ∧
    q.num * 2 ^ Q ≤ (hi : Int) * q.den

end QReal

/-- Qt's `qRound(double)`:
`d >= 0.0 ? int(d + 0.5) : int(d - double(int(d-1)) + 0.5) + int(d-1)`. -/
def qRound (d : QReal) : Int :=
  if QReal.le (QReal.ofInt 0) d then (d.add QReal.half).trunc
  else
    let m := (d.sub (QReal.ofInt 1)).trunc
    ((d.sub (QReal.ofInt m)).add QReal.half).trunc + m

/-! ## Constants of the Windows SDK and of Qt -/

def USER_DEFAULT_SCREEN_DPI : Nat := 96
def SM_CYCAPTION : Int := 4
def SM_CXSIZEFRAME : Int := 32
def SM_CXPADDEDBORDER : Int := 92
def HCF_HIGHCONTRASTON : Nat := 1
def LOGPIXELSX : Int := 88
def LOGPIXELSY : Int := 90
def MONITOR_DEFAULTTOPRIMARY : Nat := 1
def MONITOR_DEFAULTTONEAREST : Nat := 2
def DPI_AWARENESS_INVALID : Int := -1

/-- The macro `SUCCEEDED(hr)`. -/
def SUCCEEDED (hr : Int) : Bool := decide (0 ≤ hr)

/-- The macro `FAILED(hr)`. -/
def FAILED (hr : Int) : Bool := decide (hr < 0)

/-- The macro `RGB(r, g, b)`, a `COLORREF` `0x00bbggrr`. -/
def RGB (r g b : Nat) : Nat := r % 256 + (g % 256) * 256 + (b % 256) * 65536

/-- `QColor::fromRgba`: the argument is read as `0xAARRGGBB`, alpha included. -/
def QColor.fromRgba (rgba : Nat) : QColor :=
  { red := rgba / 65536 % 256, green := rgba / 256 % 256, blue := rgba % 256,
    alpha := rgba / 16777216 % 256 }

/-- `Qt::darkGray`, the opaque colour `#808080`. -/
def Qt.darkGray : QColor := { red := 128, green := 128, blue := 128, alpha := 255 }

/-- `QSettings::value(name, 0).toUInt(&ok)`: an absent value yields the default `0`, which
converts; the result is the pair (value, ok). -/
def registryToUInt (v : Option RegData) : Nat × Bool :=
  match v with
  | none => (0, true)
  | some (RegData.uint n) => (n % 4294967296, true)
  | some RegData.notConvertible => (0, false)

/-- Modelled from the spec: `enum class DPIAwareness` is declared in a header that is not part
of the sources at hand.  The spec names its members (Unaware, System, PerMonitor,
PerMonitorV2, Invalid); the code obtains a value by `static_cast` from the integer the system
reports, so a value is kept as that integer, with the numbering of the system's
`DPI_AWARENESS` / `PROCESS_DPI_AWARENESS` constants. -/
abbrev DPIAwareness := Int

def DPIAwareness.Invalid : DPIAwareness := -1
def DPIAwareness.Unaware : DPIAwareness := 0
def DPIAwareness.System : DPIAwareness := 1
def DPIAwareness.PerMonitor : DPIAwareness := 2
def DPIAwareness.PerMonitorV2 : DPIAwareness := 3

/-! ## Version gate -/

/-- `QOperatingSystemVersion::compare`. -/
def QOperatingSystemVersion.compare (v1 v2 : QOperatingSystemVersion) : Int :=
  if v1.major = v2.major then
    if v1.minor = v2.minor then (v1.micro : Int) - v2.micro
    else (v1.minor : Int) - v2.minor
  else (v1.major : Int) - v2.major

/-- `__IsWin10RS1OrGreater` (lines 49-57), the build for Qt 5.9 or later. -/
def __IsWin10RS1OrGreater (os : OS) : Bool :=
  decide (0 ≤ os.version.compare ⟨10, 0, 14393⟩)

/-- `__IsWin1019H1OrGreater` (lines 59-67), the build for Qt 5.9 or later. -/
def __IsWin1019H1OrGreater (os : OS) : Bool :=
  decide (0 ≤ os.version.compare ⟨10, 0, 18362⟩)

/-! ## Lazy binding of entry points -/

/-- The block every function that resolves one entry point starts with:
`if (!Func) { if (!tried) { tried = true; dll = LoadLibraryExW(..); if (dll) { Func =
GetProcAddress(dll, symbol); } } }`.  The result is the statics after the block and the
interactions the block made. -/
def lazyBind (os : OS) (dll : Dll) (symbol : Api) (st : Slot) : Slot × List Event :=
  if !st.func then
    if !st.tried then
      if os.LoadLibraryExW dll then
        ({ tried := true, func := os.GetProcAddress dll symbol },
          [Event.LoadLibraryExW dll, Event.GetProcAddress dll symbol])
      else ({ tried := true, func := st.func }, [Event.LoadLibraryExW dll])
    else (st, [])
  else (st, [])

/-- The binding block of `__GetSystemMetricsForDpi` (lines 96-114) on its statics. -/
def bindGetSystemMetricsForDpi (os : OS) (st : Slot) : Slot × List Event :=
  if __IsWin10RS1OrGreater os then lazyBind os Dll.User32 Api.GetSystemMetricsForDpi st
  else (st, [])

/-- The binding block of `Utils::getDPIForWindow` (lines 528-575) on its statics. -/
def bindGetDPIForWindow (os : OS) (st : DpiStatics) : DpiStatics × List Event :=
  if __IsWin10RS1OrGreater os then
    if !st.GetDpiForWindowFunc || !st.GetSystemDpiForProcessFunc || !st.GetDpiForSystemFunc then
      if !st.tried then
        if os.LoadLibraryExW Dll.User32 then
          ({ st with
              tried := true
              GetDpiForWindowFunc := os.GetProcAddress Dll.User32 Api.GetDpiForWindow
              GetSystemDpiForProcessFunc := os.GetProcAddress Dll.User32 Api.GetSystemDpiForProcess
              GetDpiForSystemFunc := os.GetProcAddress Dll.User32 Api.GetDpiForSystem },
            [Event.LoadLibraryExW Dll.User32,
             Event.GetProcAddress Dll.User32 Api.GetDpiForWindow,
             Event.GetProcAddress Dll.User32 Api.GetSystemDpiForProcess,
             Event.GetProcAddress Dll.User32 Api.GetDpiForSystem])
        else ({ st with tried := true }, [Event.LoadLibraryExW Dll.User32])
      else (st, [])
    else (st, [])
  else if os.isWin8Point1OrGreater then
    if !st.GetDpiForMonitorFunc then
      if !st.tried then
        if os.LoadLibraryExW Dll.SHCore then
          ({ st with
              tried := true
              GetDpiForMonitorFunc := os.GetProcAddress Dll.SHCore Api.GetDpiForMonitor },
            [Event.LoadLibraryExW Dll.SHCore,
             Event.GetProcAddress Dll.SHCore Api.GetDpiForMonitor])
        else ({ st with tried := true }, [Event.LoadLibraryExW Dll.SHCore])
      else (st, [])
    else (st, [])
  else (st, [])

/-- The binding block of `Utils::getDPIAwarenessForWindow` (lines 735-782) on its statics. -/
def bindGetDPIAwarenessForWindow (os : OS) (st : AwarenessStatics) :
    AwarenessStatics × List Event :=
  if __IsWin10RS1OrGreater os then
    if !st.GetWindowDpiAwarenessContextFunc || !st.GetThreadDpiAwarenessContextFunc
        || !st.GetAwarenessFromDpiAwarenessContextFunc then
      if !st.tried then
        if os.LoadLibraryExW Dll.User32 then
          ({ st with
              tried := true
              GetWindowDpiAwarenessContextFunc :=
                os.GetProcAddress Dll.User32 Api.GetWindowDpiAwarenessContext
              GetThreadDpiAwarenessContextFunc :=
                os.GetProcAddress Dll.User32 Api.GetThreadDpiAwarenessContext
              GetAwarenessFromDpiAwarenessContextFunc :=
                os.GetProcAddress Dll.User32 Api.GetAwarenessFromDpiAwarenessContext },
            [Event.LoadLibraryExW Dll.User32,
             Event.GetProcAddress Dll.User32 Api.GetWindowDpiAwarenessContext,
             Event.GetProcAddress Dll.User32 Api.GetThreadDpiAwarenessContext,
             Event.GetProcAddress Dll.User32 Api.GetAwarenessFromDpiAwarenessContext])
        else ({ st with tried := true }, [Event.LoadLibraryExW Dll.User32])
      else (st, [])
    else (st, [])
  else if os.isWin8Point1OrGreater then
    if !st.GetProcessDpiAwarenessFunc then
      if !st.tried then
        if os.LoadLibraryExW Dll.SHCore then
          ({ st with
              tried := true
              GetProcessDpiAwarenessFunc :=
                os.GetProcAddress Dll.SHCore Api.GetProcessDpiAwareness },
            [Event.LoadLibraryExW Dll.SHCore,
             Event.GetProcAddress Dll.SHCore Api.GetProcessDpiAwareness])
        else ({ st with tried := true }, [Event.LoadLibraryExW Dll.SHCore])
      else (st, [])
    else (st, [])
  else (st, [])

/-- Run the binding block of `__GetSystemMetricsForDpi`; the result is the pointer after it. -/
def resolveGetSystemMetricsForDpi (os : OS) : Op Bool := fun s =>
  let r := bindGetSystemMetricsForDpi os s.sGetSystemMetricsForDpi
  (r.1.func, { s with sGetSystemMetricsForDpi := r.1, log := s.log ++ r.2 })

/-- Run the binding block of `__ShouldAppsUseDarkMode` (lines 171-187). -/
def resolveShouldAppsUseDarkMode (os : OS) : Op Bool := fun s =>
  let r := lazyBind os Dll.UxTheme Api.ShouldAppsUseDarkMode s.sShouldAppsUseDarkMode
  (r.1.func, { s with sShouldAppsUseDarkMode := r.1, log := s.log ++ r.2 })

/-- Run the binding block of `Utils::isCompositionEnabled` (lines 215-231). -/
def resolveDwmIsCompositionEnabled (os : OS) : Op Bool := fun s =>
  let r := lazyBind os Dll.DwmApi Api.DwmIsCompositionEnabled s.sIsCompositionEnabled
  (r.1.func, { s with sIsCompositionEnabled := r.1, log := s.log ++ r.2 })

/-- Run the binding block of `Utils::updateFrameMargins` (lines 324-340). -/
def resolveDwmExtendFrameIntoClientArea (os : OS) : Op Bool := fun s =>
  let r := lazyBind os Dll.DwmApi Api.DwmExtendFrameIntoClientArea s.sUpdateFrameMargins
  (r.1.func, { s with sUpdateFrameMargins := r.1, log := s.log ++ r.2 })

/-- Run the binding block of `Utils::getColorizationColor` (lines 403-419). -/
def resolveDwmGetColorizationColor (os : OS) : Op Bool := fun s =>
  let r := lazyBind os Dll.DwmApi Api.DwmGetColorizationColor s.sGetColorizationColor
  (r.1.func, { s with sGetColorizationColor := r.1, log := s.log ++ r.2 })

/-- Run the binding block of `Utils::getWindowVisibleFrameBorderThickness` (lines 449-465). -/
def resolveDwmGetWindowAttribute (os : OS) : Op Bool := fun s =>
  let r := lazyBind os Dll.DwmApi Api.DwmGetWindowAttribute
    s.sGetWindowVisibleFrameBorderThickness
  (r.1.func, { s with sGetWindowVisibleFrameBorderThickness := r.1, log := s.log ++ r.2 })

/-- Run the binding block of `Utils::getDPIForWindow`; the result is the pointers after it. -/
def resolveGetDPIForWindow (os : OS) : Op DpiStatics := fun s =>
  let r := bindGetDPIForWindow os s.sGetDPIForWindow
  (r.1, { s with sGetDPIForWindow := r.1, log := s.log ++ r.2 })

/-- Run the binding block of `Utils::getDPIAwarenessForWindow`. -/
def resolveGetDPIAwarenessForWindow (os : OS) : Op AwarenessStatics := fun s =>
  let r := bindGetDPIAwarenessForWindow os s.sGetDPIAwarenessForWindow
  (r.1, { s with sGetDPIAwarenessForWindow := r.1, log := s.log ++ r.2 })

/-- A call of a system entry point, recorded in the log. -/
def sys (api : Api) (args : List Int) : Op Unit := emit (Event.call api args)

/-- A read of a registry value through `QSettings`, recorded in the log. -/
def readRegistry (os : OS) (key : RegKey) (name : RegName) : Op (Option RegData) := do
  emit (Event.registryValue key name)
  pure (os.registry key name)

/-! ## DPI and awareness -/

/-- The first strategy of `Utils::getDPIForWindow` (lines 577-583): `GetDpiForWindow`. -/
def dpiFromWindow (os : OS) (winId : WId) : Op Nat := do
  sys Api.GetDpiForWindow [winId]
  let result := os.GetDpiForWindow winId % 4294967296
  if result > 0 then pure result
  else pure USER_DEFAULT_SCREEN_DPI

/-- The tail shared by the two monitor strategies (lines 590-597 and 632-639):
`GetDpiForMonitor` on the monitor found, averaging the two axes. -/
def dpiFromMonitor (os : OS) (screen : Nat) : Op Nat := do
  sys Api.GetDpiForMonitor [screen]
  let r := os.GetDpiForMonitor screen
  if FAILED r.1 then pure USER_DEFAULT_SCREEN_DPI
  else
    let dpiX := r.2.1 % 4294967296
    let dpiY := r.2.2 % 4294967296
    pure (toU32 (qRound ((QReal.ofInt (((dpiX + dpiY) % 4294967296 : Nat) : Int)).div
      (QReal.ofInt 2))))

/-- The second strategy (lines 585-597): the monitor nearest to the window. -/
def dpiFromWindowMonitor (os : OS) (winId : WId) : Op Nat := do
  sys Api.MonitorFromWindow [winId, MONITOR_DEFAULTTONEAREST]
  let screen := os.MonitorFromWindow winId MONITOR_DEFAULTTONEAREST
  if screen = 0 then pure USER_DEFAULT_SCREEN_DPI
  else dpiFromMonitor os screen

/-- The third strategy (lines 599-620): `GetSystemDpiForProcess`, else `GetDpiForSystem`. -/
def dpiFromProcessOrSystem (os : OS) (f : DpiStatics) : Op Nat := do
  if f.GetSystemDpiForProcessFunc then
    sys Api.GetCurrentProcess []
    let hProcess := os.GetCurrentProcess
    if hProcess = 0 then pure USER_DEFAULT_SCREEN_DPI
    else do
      sys Api.GetSystemDpiForProcess [hProcess]
      let result := os.GetSystemDpiForProcess hProcess % 4294967296
      if result > 0 then pure result
      else pure USER_DEFAULT_SCREEN_DPI
  else do
    sys Api.GetDpiForSystem []
    let result := os.GetDpiForSystem % 4294967296
    if result > 0 then pure result
    else pure USER_DEFAULT_SCREEN_DPI

/-- The fourth strategy (lines 622-639): the monitor nearest to the cursor. -/
def dpiFromCursorMonitor (os : OS) : Op Nat := do
  sys Api.GetCursorPos []
  match os.GetCursorPos with
  | none => pure USER_DEFAULT_SCREEN_DPI
  | some pos => do
    sys Api.MonitorFromPoint [pos.1, pos.2, MONITOR_DEFAULTTONEAREST]
    let screen := os.MonitorFromPoint pos
    if screen = 0 then pure USER_DEFAULT_SCREEN_DPI
    else dpiFromMonitor os screen

/-- The last strategy (lines 641-663): the device context of the screen.  `dpiX + dpiY` is a
sum of two `int`s (line 659), taken modulo `2^32`. -/
def dpiFromDeviceContext (os : OS) : Op Nat := do
  sys Api.GetDC [0]
  let hDC := os.GetDC
  if hDC ≠ 0 then
    sys Api.GetDeviceCaps [hDC, LOGPIXELSX]
    let dpiX := os.GetDeviceCaps hDC LOGPIXELSX
    if dpiX ≤ 0 then pure USER_DEFAULT_SCREEN_DPI
    else do
      sys Api.GetDeviceCaps [hDC, LOGPIXELSY]
      let dpiY := os.GetDeviceCaps hDC LOGPIXELSY
      if dpiY ≤ 0 then pure USER_DEFAULT_SCREEN_DPI
      else do
        sys Api.ReleaseDC [0, hDC]
        pure (toU32 (qRound ((QReal.ofInt (toI32 (dpiX + dpiY))).div (QReal.ofInt 2))))
  else pure USER_DEFAULT_SCREEN_DPI

/-- `Utils::getDPIForWindow` (lines 526-665). -/
def getDPIForWindow (os : OS) (winId : WId) : Op Nat := do
  let f ← resolveGetDPIForWindow os
  if winId ≠ 0 ∧ f.GetDpiForWindowFunc then dpiFromWindow os winId
  else if winId ≠ 0 ∧ f.GetDpiForMonitorFunc then dpiFromWindowMonitor os winId
  else if f.GetSystemDpiForProcessFunc ∨ f.GetDpiForSystemFunc then dpiFromProcessOrSystem os f
  else if f.GetDpiForMonitorFunc then dpiFromCursorMonitor os
  else dpiFromDeviceContext os

/-- The conversion of a reported awareness (lines 786-792 and 800-806). -/
def awarenessFromContext (os : OS) (context : Nat) : Op DPIAwareness := do
  sys Api.GetAwarenessFromDpiAwarenessContext [context]
  let awareness := os.GetAwarenessFromDpiAwarenessContext context
  if awareness = DPI_AWARENESS_INVALID then pure DPIAwareness.Invalid
  else pure awareness

/-- `Utils::getDPIAwarenessForWindow` (lines 733-823). -/
def getDPIAwarenessForWindow (os : OS) (winId : WId) : Op DPIAwareness := do
  let f ← resolveGetDPIAwarenessForWindow os
  if winId ≠ 0 ∧ f.GetWindowDpiAwarenessContextFunc
      ∧ f.GetAwarenessFromDpiAwarenessContextFunc then
    sys Api.GetWindowDpiAwarenessContext [winId]
    let context := os.GetWindowDpiAwarenessContext winId
    if context ≠ 0 then awarenessFromContext os context
    else pure DPIAwareness.Invalid
  else if f.GetThreadDpiAwarenessContextFunc ∧ f.GetAwarenessFromDpiAwarenessContextFunc then
    sys Api.GetThreadDpiAwarenessContext []
    let context := os.GetThreadDpiAwarenessContext
    if context ≠ 0 then awarenessFromContext os context
    else pure DPIAwareness.Invalid
  else if f.GetProcessDpiAwarenessFunc then
    sys Api.GetProcessDpiAwareness [0]
    let r := os.GetProcessDpiAwareness
    if SUCCEEDED r.1 then pure r.2
    else pure DPIAwareness.Invalid
  else do
    sys Api.IsProcessDPIAware []
    pure (if os.IsProcessDPIAware = 0 then DPIAwareness.Unaware else DPIAwareness.System)

/-- `__GetSystemMetricsForDpi` (lines 90-151), release build: the `Q_ASSERT(dpi != 0)` of
line 92 expands to nothing and the guard that follows returns 0. -/
def __GetSystemMetricsForDpi (os : OS) (nIndex : Int) (dpi : Nat) : Op Nat := do
  if dpi = 0 then pure 0
  else do
    let GetSystemMetricsForDpiFunc ← resolveGetSystemMetricsForDpi os
    if GetSystemMetricsForDpiFunc then
      sys Api.GetSystemMetricsForDpi [nIndex, dpi]
      let result := os.GetSystemMetricsForDpi nIndex dpi
      if result > 0 then pure (toU32 result)
      else pure 0
    else do
      sys Api.GetSystemMetrics [nIndex]
      let value := QReal.ofInt (os.GetSystemMetrics nIndex)
      if value.le (QReal.ofInt 0) then pure 0
      else do
        let dpiAwareness ← getDPIAwarenessForWindow os 0
        if dpiAwareness = DPIAwareness.Invalid then pure 0
        else
          let dpr := (QReal.ofInt dpi).div (QReal.ofInt USER_DEFAULT_SCREEN_DPI)
          if dpiAwareness = DPIAwareness.Unaware then pure (toU32 (qRound (value.mul dpr)))
          else do
            let currentDPI ← getDPIForWindow os 0
            if currentDPI = 0 then pure 0
            else
              let currentDPR :=
                (QReal.ofInt currentDPI).div (QReal.ofInt USER_DEFAULT_SCREEN_DPI)
              if currentDPR.eq dpr then pure (toU32 (qRound value))
              else pure (toU32 (qRound ((value.div currentDPR).mul dpr)))

/-! ## Theme and composition -/

/-- The lambda `resultFromRegistry` of `__ShouldAppsUseDarkMode` (lines 158-163). -/
def resultFromRegistry (os : OS) : Op Bool := do
  let v ← readRegistry os RegKey.Personalize RegName.AppsUseLightTheme
  let r := registryToUInt v
  pure (r.2 && r.1 == 0)

/-- `__ShouldAppsUseDarkMode` (lines 153-195). -/
def __ShouldAppsUseDarkMode (os : OS) : Op Bool := do
  if !__IsWin10RS1OrGreater os then pure false
  else if __IsWin1019H1OrGreater os then resultFromRegistry os
  else do
    let ShouldAppsUseDarkModeFunc ← resolveShouldAppsUseDarkMode os
    if ShouldAppsUseDarkModeFunc then
      sys Api.ShouldAppsUseDarkMode []
      pure (os.ShouldAppsUseDarkMode != 0)
    else resultFromRegistry os

/-- `__IsHighContrastModeEnabled` (lines 197-207). -/
def __IsHighContrastModeEnabled (os : OS) : Op Bool := do
  sys Api.SystemParametersInfoW []
  match os.SystemParametersInfoW with
  | none => pure false
  | some dwFlags => pure ((dwFlags &&& HCF_HIGHCONTRASTON) != 0)

/-- `Utils::isCompositionEnabled` (lines 209-247). -/
def isCompositionEnabled (os : OS) : Op Bool := do
  if os.isWin8OrGreater then pure true
  else do
    let DwmIsCompositionEnabledFunc ← resolveDwmIsCompositionEnabled os
    let fromRegistry : Op Bool := do
      let v ← readRegistry os RegKey.Dwm RegName.Composition
      let r := registryToUInt v
      pure (r.2 && r.1 != 0)
    if DwmIsCompositionEnabledFunc then
      sys Api.DwmIsCompositionEnabled []
      let r := os.DwmIsCompositionEnabled
      if SUCCEEDED r.1 then pure (r.2 != 0)
      else fromRegistry
    else fromRegistry

/-! ## Window state -/

/-- `Utils::isMaximized` (lines 676-683), release build.  The `Q_ASSERT(winId)` of line 678 is
that of a debug build: see `callWithNullHandle`. -/
def isMaximized (os : OS) (winId : WId) : Op Bool := do
  if winId = 0 then pure false
  else do
    sys Api.IsMaximized [winId]
    pure (os.IsMaximized winId != 0)

/-- `Utils::isFullScreened` (lines 685-715), release build.  The `Q_ASSERT(winId)` of line 687 is
that of a debug build: see `callWithNullHandle`. -/
def isFullScreened (os : OS) (winId : WId) : Op Bool := do
  if winId = 0 then pure false
  else do
    sys Api.GetWindowRect [winId]
    match os.GetWindowRect winId with
    | none => pure false
    | some windowGeometry => do
      sys Api.MonitorFromWindow [winId, MONITOR_DEFAULTTOPRIMARY]
      let screen := os.MonitorFromWindow winId MONITOR_DEFAULTTOPRIMARY
      if screen = 0 then pure false
      else do
        sys Api.GetMonitorInfoW [screen]
        match os.GetMonitorInfoW screen with
        | none => pure false
        | some screenGeometry =>
          pure (windowGeometry.top == screenGeometry.top
            && windowGeometry.bottom == screenGeometry.bottom
            && windowGeometry.left == screenGeometry.left
            && windowGeometry.right == screenGeometry.right)

/-! ## System metrics and the frame -/

/-- `Utils::getWindowVisibleFrameBorderThickness` (lines 440-481), release build. The
`Q_ASSERT(winId)` of line 442 is that of a debug build: see `callWithNullHandle`. -/
def getWindowVisibleFrameBorderThickness (os : OS) (k : Constants) (winId : WId) : Op Nat := do
  if winId = 0 then pure 1
  else if !os.isWin10OrGreater then pure 1
  else do
    let DwmGetWindowAttributeFunc ← resolveDwmGetWindowAttribute os
    if DwmGetWindowAttributeFunc then
      sys Api.DwmGetWindowAttribute [winId, k._DWMWA_VISIBLE_FRAME_BORDER_THICKNESS]
      let r := os.DwmGetWindowAttribute winId k._DWMWA_VISIBLE_FRAME_BORDER_THICKNESS
      if SUCCEEDED r.1 then pure (r.2 % 4294967296)
      else pure 1
    else pure 1

/-- The body of `Utils::getSystemMetric` (lines 249-297), release build; `self` stands for the
two calls the function makes to itself at lines 287-288.  The `Q_ASSERT(winId)` of line 251 is
that of a debug build: see `callWithNullHandle`. -/
def getSystemMetricBody (self : WId → SystemMetric → Bool → Op Nat) (os : OS) (k : Constants)
    (winId : WId) (metric : SystemMetric) (dpiScale : Bool) : Op Nat := do
  if winId = 0 then pure 0
  else do
    let dpi ← if dpiScale then getDPIForWindow os winId else pure USER_DEFAULT_SCREEN_DPI
    let dpr := if dpiScale then (QReal.ofInt dpi).div (QReal.ofInt USER_DEFAULT_SCREEN_DPI)
      else QReal.ofInt 1
    match metric with
    | SystemMetric.ResizeBorderThickness => do
      let sizeFrame ← __GetSystemMetricsForDpi os SM_CXSIZEFRAME dpi
      let paddedBorder ← __GetSystemMetricsForDpi os SM_CXPADDEDBORDER dpi
      let result := (sizeFrame + paddedBorder) % 4294967296
      if result > 0 then pure result
      else do
        let composition ← isCompositionEnabled os
        let defaultResizeBorderThickness :=
          (if composition then k.kDefaultResizeBorderThicknessAero
            else k.kDefaultResizeBorderThicknessClassic) % 4294967296
        if dpiScale then
          pure (toU32 (qRound ((QReal.ofInt defaultResizeBorderThickness).mul dpr)))
        else pure defaultResizeBorderThickness
    | SystemMetric.CaptionHeight => do
      let result ← __GetSystemMetricsForDpi os SM_CYCAPTION dpi
      if result > 0 then pure result
      else if dpiScale then
        pure (toU32 (qRound ((QReal.ofInt k.kDefaultCaptionHeight).mul dpr)))
      else pure (k.kDefaultCaptionHeight % 4294967296)
    | SystemMetric.TitleBarHeight => do
      let captionHeight ← self winId SystemMetric.CaptionHeight dpiScale
      let resizeBorderThickness ← self winId SystemMetric.ResizeBorderThickness dpiScale
      let maximized ← isMaximized os winId
      let maxOrFull ← if maximized then pure true else isFullScreened os winId
      pure (if maxOrFull then captionHeight
        else (captionHeight + resizeBorderThickness) % 4294967296)
    | SystemMetric.FrameBorderThickness => do
      let borderThickness ← getWindowVisibleFrameBorderThickness os k winId
      pure (if dpiScale then toU32 (qRound ((QReal.ofInt borderThickness).mul dpr))
        else borderThickness)

/-- `Utils::getSystemMetric`.  The function calls itself only from the `TitleBarHeight` case,
for `CaptionHeight` and `ResizeBorderThickness`, whose cases make no further call; two levels
of the body are therefore the whole recursion (`getSystemMetric_unfold` below states the
recursive equation of the source). -/
def getSystemMetric (os : OS) (k : Constants) (winId : WId) (metric : SystemMetric)
    (dpiScale : Bool) : Op Nat :=
  getSystemMetricBody (getSystemMetricBody (fun _ _ _ => pure 0) os k) os k winId metric dpiScale

/-- `Utils::updateFrameMargins` (lines 313-354), release build.  The `Q_ASSERT(winId)` of line
320 is that of a debug build: see `updateFrameMarginsChecked`. -/
def updateFrameMargins (os : OS) (k : Constants) (winId : WId) (reset : Bool) : Op Bool := do
  let composition ← isCompositionEnabled os
  if !composition then pure false
  else if winId = 0 then pure false
  else do
    let DwmExtendFrameIntoClientAreaFunc ← resolveDwmExtendFrameIntoClientArea os
    if DwmExtendFrameIntoClientAreaFunc then
      let margin ← if reset then pure 0
        else do
          let t ← getWindowVisibleFrameBorderThickness os k winId
          pure (toI32 t)
      sys Api.DwmExtendFrameIntoClientArea [winId, margin, margin, margin, margin]
      let hr := os.DwmExtendFrameIntoClientArea winId margin
      if FAILED hr then pure false
      else pure true
    else pure false

/-- `Utils::getColorizationColor` (lines 401-438). -/
def getColorizationColor (os : OS) : Op QColor := do
  let DwmGetColorizationColorFunc ← resolveDwmGetColorizationColor os
  if DwmGetColorizationColorFunc then
    sys Api.DwmGetColorizationColor []
    let r := os.DwmGetColorizationColor
    if FAILED r.1 then
      let v ← readRegistry os RegKey.Dwm RegName.ColorizationColor
      let c := registryToUInt v
      if !c.2 || c.1 == 0 then pure (QColor.fromRgba (RGB 128 128 128))
      else pure (QColor.fromRgba c.1)
    else pure (QColor.fromRgba (r.2 % 4294967296))
  else pure Qt.darkGray

/-- `Utils::getColorizationArea` (lines 483-503). -/
def getColorizationArea (os : OS) : Op ColorizationArea := do
  if !os.isWin10OrGreater then pure ColorizationArea.None
  else do
    let themeVariant ← readRegistry os RegKey.Personalize RegName.ColorPrevalence
    let themeValue := (registryToUInt themeVariant).1
    let dwmVariant ← readRegistry os RegKey.Dwm RegName.ColorPrevalence
    let dwmValue := (registryToUInt dwmVariant).1
    let theme := themeValue != 0
    let dwm := dwmValue != 0
    if theme && dwm then pure ColorizationArea.All
    else if theme then pure ColorizationArea.StartMenu_TaskBar_ActionCenter
    else if dwm then pure ColorizationArea.TitleBar_WindowBorder
    else pure ColorizationArea.None

/-- `Utils::getSystemTheme` (lines 825-834). -/
def getSystemTheme (os : OS) : Op SystemTheme := do
  let highContrast ← __IsHighContrastModeEnabled os
  if highContrast then pure SystemTheme.HighContrast
  else do
    let dark ← __ShouldAppsUseDarkMode os
    if dark then pure SystemTheme.Dark
    else pure SystemTheme.Light

/-! ## What a run may depend on -/

/-- The statics as they stand once every binding block has run, with the log dropped.  Two
states with the same `settle` hold the same pointers after binding. -/
def settle (os : OS) (s : Proc) : Proc :=
  { sGetSystemMetricsForDpi := (bindGetSystemMetricsForDpi os s.sGetSystemMetricsForDpi).1
    sShouldAppsUseDarkMode :=
      (lazyBind os Dll.UxTheme Api.ShouldAppsUseDarkMode s.sShouldAppsUseDarkMode).1
    sIsCompositionEnabled :=
      (lazyBind os Dll.DwmApi Api.DwmIsCompositionEnabled s.sIsCompositionEnabled).1
    sUpdateFrameMargins :=
      (lazyBind os Dll.DwmApi Api.DwmExtendFrameIntoClientArea s.sUpdateFrameMargins).1
    sGetColorizationColor :=
      (lazyBind os Dll.DwmApi Api.DwmGetColorizationColor s.sGetColorizationColor).1
    sGetWindowVisibleFrameBorderThickness :=
      (lazyBind os Dll.DwmApi Api.DwmGetWindowAttribute
        s.sGetWindowVisibleFrameBorderThickness).1
    sGetDPIForWindow := (bindGetDPIForWindow os s.sGetDPIForWindow).1
    sGetDPIAwarenessForWindow := (bindGetDPIAwarenessForWindow os s.sGetDPIAwarenessForWindow).1
    log := [] }

/-- A computation is steady when it leaves `settle` unchanged and its result is the same from
any two states with the same `settle`. -/
def Steady {α : Type} (os : OS) (x : Op α) : Prop :=
  (∀ s, settle os (x.run s).2 = settle os s) ∧
  (∀ s t, settle os s = settle os t → (x.run s).1 = (x.run t).1)

/-- Run the same computation `n` times in a row, collecting the results. -/
def repeatCalls {α : Type} (x : Op α) : Nat → Op (List α)
  | 0 => pure []
  | n + 1 => do
    let a ← x
    let rest ← repeatCalls x n
    pure (a :: rest)

/-! ## Concrete systems used as instances -/

/-- Values for the project constants: classic border 4, Aero border 8, caption 23, and the
attribute number 37 of `DWMWA_VISIBLE_FRAME_BORDER_THICKNESS`. -/
def sampleConstants : Constants :=
  { kDefaultResizeBorderThicknessClassic := 4
    kDefaultResizeBorderThicknessAero := 8
    kDefaultCaptionHeight := 23
    _DWMWA_VISIBLE_FRAME_BORDER_THICKNESS := 37 }

/-- A Windows 7 SP1 desktop at 96 DPI with composition on: no `SHCore.dll`, none of the
Windows 10 entry points, a normal window on a 1920x1080 monitor. -/
def win7 : OS :=
  { version := ⟨6, 1, 7601⟩
    isWin8OrGreater := false
    isWin8Point1OrGreater := false
    isWin10OrGreater := false
    LoadLibraryExW := fun dll => dll != Dll.SHCore
    GetProcAddress := fun dll symbol =>
      dll == Dll.DwmApi &&
        (symbol == Api.DwmIsCompositionEnabled || symbol == Api.DwmExtendFrameIntoClientArea
          || symbol == Api.DwmGetColorizationColor || symbol == Api.DwmGetWindowAttribute)
    registry := fun key name =>
      match key, name with
      | RegKey.Dwm, RegName.Composition => some (RegData.uint 1)
      | RegKey.Dwm, RegName.ColorizationColor => some (RegData.uint 1802811644)
      | _, _ => none
    GetSystemMetricsForDpi := fun _ _ => 0
    GetSystemMetrics := fun nIndex =>
      if nIndex = SM_CYCAPTION then 22
      else if nIndex = SM_CXSIZEFRAME then 4
      else if nIndex = SM_CXPADDEDBORDER then 4
      else 0
    ShouldAppsUseDarkMode := 0
    SystemParametersInfoW := some 0
    DwmIsCompositionEnabled := (0, 1)
    DwmExtendFrameIntoClientArea := fun _ _ => 0
    DwmGetColorizationColor := (0, 1802811644)
    DwmGetWindowAttribute := fun _ _ => (-2147024809, 0)
    GetDpiForWindow := fun _ => 0
    GetCurrentProcess := 4294967295
    GetSystemDpiForProcess := fun _ => 0
    GetDpiForSystem := 0
    MonitorFromWindow := fun _ _ => 65537
    GetDpiForMonitor := fun _ => (0, 96, 96)
    GetCursorPos := some (640, 480)
    MonitorFromPoint := fun _ => 65537
    GetDC := 1
    GetDeviceCaps := fun _ _ => 96
    ReleaseDC := fun _ => 1
    IsMinimized := fun _ => 0
    IsMaximized := fun _ => 0
    GetWindowRect := fun _ => some ⟨100, 100, 900, 700⟩
    GetMonitorInfoW := fun _ => some ⟨0, 0, 1920, 1080⟩
    GetWindowPlacement := fun _ => some 1
    GetWindowDpiAwarenessContext := fun _ => 0
    GetThreadDpiAwarenessContext := 0
    GetAwarenessFromDpiAwarenessContext := fun _ => -1
    GetProcessDpiAwareness := (0, 1)
    IsProcessDPIAware := 1
    SetWindowPos := fun _ => 1
    GetSystemMenu := fun _ => 131
    SetMenuItemInfoW := fun _ _ _ => 1
    SetMenuDefaultItem := fun _ => 1
    TrackPopupMenu := fun _ _ _ _ _ => 0
    PostMessageW := fun _ _ => 1
    GetWindowLongPtrW := fun _ => 349110272
    SetWindowLongPtrW := fun _ _ => 349110272
    isRightToLeft := false }

/-- A Windows 10 22H2 desktop at 96 DPI: every library loads and every entry point exists. -/
def win10 : OS :=
  { win7 with
    version := ⟨10, 0, 19045⟩
    isWin8OrGreater := true
    isWin8Point1OrGreater := true
    isWin10OrGreater := true
    LoadLibraryExW := fun _ => true
    GetProcAddress := fun _ _ => true
    registry := fun key name =>
      match key, name with
      | RegKey.Personalize, RegName.AppsUseLightTheme => some (RegData.uint 0)
      | RegKey.Personalize, RegName.ColorPrevalence => some (RegData.uint 0)
      | RegKey.Dwm, RegName.ColorPrevalence => some (RegData.uint 1)
      | RegKey.Dwm, RegName.ColorizationColor => some (RegData.uint 3288365271)
      | _, _ => none
    GetSystemMetricsForDpi := fun nIndex dpi =>
      if nIndex = SM_CYCAPTION then (23 * dpi + 48) / 96
      else if nIndex = SM_CXSIZEFRAME then (4 * dpi + 48) / 96
      else if nIndex = SM_CXPADDEDBORDER then (4 * dpi + 48) / 96
      else 0
    GetSystemMetrics := fun nIndex =>
      if nIndex = SM_CYCAPTION then 23
      else if nIndex = SM_CXSIZEFRAME then 4
      else if nIndex = SM_CXPADDEDBORDER then 4
      else 0
    ShouldAppsUseDarkMode := 1
    DwmGetColorizationColor := (0, 3288365271)
    DwmGetWindowAttribute := fun _ _ => (0, 1)
    GetDpiForWindow := fun _ => 96
    GetSystemDpiForProcess := fun _ => 96
    GetDpiForSystem := 96
    GetWindowDpiAwarenessContext := fun _ => 18
    GetThreadDpiAwarenessContext := 18
    GetAwarenessFromDpiAwarenessContext := fun _ => 2
    GetProcessDpiAwareness := (0, 2) }

/-- Windows 7 with the display set to 200% (192 DPI). -/
def win7At192 : OS := { win7 with GetDeviceCaps := fun _ _ => 192 }

/-- Windows 7 with composition switched off (the classic theme). -/
def win7Classic : OS :=
  { win7 with
    DwmIsCompositionEnabled := (0, 0)
    registry := fun key name =>
      match key, name with
      | RegKey.Dwm, RegName.Composition => some (RegData.uint 0)
      | _, _ => none }

/-- A Windows 7 system on which `DwmApi.dll` cannot be loaded, while the registry still holds
a colorization colour. -/
def win7NoDwmApi : OS :=
  { win7 with LoadLibraryExW := fun dll => dll != Dll.SHCore && dll != Dll.DwmApi }

/-- Windows 7 on which `DwmGetColorizationColor` fails (`E_FAIL`). -/
def win7ColorFails : OS := { win7 with DwmGetColorizationColor := (-2147467259, 0) }

/-- Windows 10 on which `GetDpiForWindow` fails (returns 0) while the process-wide system DPI
is 144. -/
def win10WindowDpiFails : OS :=
  { win10 with
    GetDpiForWindow := fun _ => 0
    GetSystemDpiForProcess := fun _ => 144
    GetDpiForSystem := 144 }

/-- Windows 10 with a maximized window. -/
def win10Maximized : OS := { win10 with IsMaximized := fun _ => 1 }

/-- Every interaction a run of `x` adds to the log satisfies `P`. -/
def Emits {α : Type} (P : Event → Prop) (x : Op α) : Prop :=
  ∀ s, ∃ l : List Event, (x.run s).2.log = s.log ++ l ∧ ∀ e ∈ l, P e

/-- Every result of `x` satisfies `P`, from any state. -/
def Returns {α : Type} (P : α → Prop) (x : Op α) : Prop :=
  ∀ s, P (x.run s).1

/-! ## The frame and chrome actuator -/

def GWL_STYLE : Int := -16
def WS_THICKFRAME : Nat := 262144
def MF_ENABLED : Nat := 0
def MF_DISABLED : Nat := 2
def SC_SIZE : Nat := 61440
def SC_MOVE : Nat := 61456
def SC_MINIMIZE : Nat := 61472
def SC_MAXIMIZE : Nat := 61488
def SC_CLOSE : Nat := 61536
def SC_RESTORE : Nat := 61728
def TPM_RETURNCMD : Nat := 256
def TPM_LAYOUTRTL : Nat := 32768
def WM_SYSCOMMAND : Nat := 274
def UINT_MAX : Nat := 4294967295

/-- The lambda `setState` of `Utils::displaySystemMenu` (lines 854-861). -/
def setState (os : OS) (menu : Nat) (item : Nat) (enabled : Bool) : Op Bool := do
  let fState := if enabled then MF_ENABLED else MF_DISABLED
  sys Api.SetMenuItemInfoW [menu, item, 0, fState]
  if os.SetMenuItemInfoW menu item fState = 0 then pure false
  else pure true

/-- The end of `Utils::displaySystemMenu` (lines 885-907): the position, the popup, the
command posted back. -/
def trackSystemMenu (os : OS) (winId : WId) (menu : Nat) (pos : Int × Int) : Op Bool := do
  let cursor ←
    if pos.1 = 0 ∧ pos.2 = 0 then do
      sys Api.GetCursorPos []
      pure os.GetCursorPos
    else pure (some pos)
  match cursor with
  | none => pure false
  | some mousePos => do
    let flags := if os.isRightToLeft then TPM_RETURNCMD ||| TPM_LAYOUTRTL else TPM_RETURNCMD
    sys Api.TrackPopupMenu [menu, flags, mousePos.1, mousePos.2, 0, winId]
    let ret := os.TrackPopupMenu menu flags mousePos.1 mousePos.2 winId
    if ret ≠ 0 then
      sys Api.PostMessageW [winId, WM_SYSCOMMAND, ret, 0]
      if os.PostMessageW winId ret = 0 then pure false
      else pure true
    else pure true

/-- `Utils::displaySystemMenu` (lines 836-908), release build; `pos` is the `QPoint`, null when
both coordinates are 0.  The `Q_ASSERT(winId)` of line 838 is
that of a debug build: see `callWithNullHandle`. -/
def displaySystemMenu (os : OS) (winId : WId) (pos : Int × Int) : Op Bool := do
  if winId = 0 then pure false
  else do
    sys Api.GetSystemMenu [winId, 0]
    let menu := os.GetSystemMenu winId
    if menu = 0 then pure false
    else do
      let maximized ← isMaximized os winId
      let maxOrFull ← if maximized then pure true else isFullScreened os winId
      let restore ← setState os menu SC_RESTORE maxOrFull
      if !restore then pure false
      else do
        let move ← setState os menu SC_MOVE (!maxOrFull)
        if !move then pure false
        else do
          let size ← setState os menu SC_SIZE (!maxOrFull)
          if !size then pure false
          else do
            let minimize ← setState os menu SC_MINIMIZE true
            if !minimize then pure false
            else do
              let maximize ← setState os menu SC_MAXIMIZE (!maxOrFull)
              if !maximize then pure false
              else do
                let close ← setState os menu SC_CLOSE true
                if !close then pure false
                else do
                  sys Api.SetMenuDefaultItem [menu, UINT_MAX, 0]
                  if os.SetMenuDefaultItem menu = 0 then pure false
                  else trackSystemMenu os winId menu pos

/-- `Utils::setWindowResizable` (lines 910-929), release build. Both branches of `if
(resizable)` are empty in the source, so `style` is written back as it was read. The
`Q_ASSERT(winId)` of line 912 is that of a debug build: see `callWithNullHandle`. -/
def setWindowResizable (os : OS) (winId : WId) (resizable : Bool) : Op Bool := do
  if winId = 0 then pure false
  else do
    sys Api.GetWindowLongPtrW [winId, GWL_STYLE]
    let style := toU32 (os.GetWindowLongPtrW winId)
    let style := if resizable then style else style
    sys Api.SetWindowLongPtrW [winId, GWL_STYLE, style]
    if os.SetWindowLongPtrW winId style = 0 then pure false
    else pure true

/-! ## Further concrete systems -/

/-- A Windows 8.1 desktop: `SHCore.dll` loads and has `GetDpiForMonitor` and
`GetProcessDpiAwareness`; none of the Windows 10 entry points; the monitor is at 120 DPI. -/
def win81 : OS :=
  { win7 with
    version := ⟨6, 3, 9600⟩
    isWin8OrGreater := true
    isWin8Point1OrGreater := true
    LoadLibraryExW := fun _ => true
    GetProcAddress := fun dll symbol =>
      (dll == Dll.DwmApi &&
        (symbol == Api.DwmIsCompositionEnabled || symbol == Api.DwmExtendFrameIntoClientArea
          || symbol == Api.DwmGetColorizationColor || symbol == Api.DwmGetWindowAttribute))
      || (dll == Dll.SHCore &&
        (symbol == Api.GetDpiForMonitor || symbol == Api.GetProcessDpiAwareness))
    GetDpiForMonitor := fun _ => (0, 120, 120) }

/-- Windows 8.1 on which `GetDpiForMonitor` reports success (`S_OK`) with both densities 0. -/
def win81ZeroMonitorDpi : OS := { win81 with GetDpiForMonitor := fun _ => (0, 0, 0) }

/-- Windows 7 on which `GetDeviceCaps(hDC, LOGPIXELSX)` fails (returns 0). -/
def win7NoLogPixelsX : OS :=
  { win7 with GetDeviceCaps := fun _ index => if index = LOGPIXELSX then 0 else 96 }

/-- Windows 7 on which `GetDeviceCaps(hDC, LOGPIXELSY)` fails (returns 0). -/
def win7NoLogPixelsY : OS :=
  { win7 with GetDeviceCaps := fun _ index => if index = LOGPIXELSY then 0 else 96 }

/-- Windows 10 with a window whose style has no `WS_THICKFRAME` (caption, system menu and
minimize box only). -/
def win10FixedSize : OS := { win10 with GetWindowLongPtrW := fun _ => 348782592 }

/-! ## Reading the log -/

/-- The `fState` that `setState` writes for an item. -/
def menuState (enabled : Bool) : Nat := if enabled then MF_ENABLED else MF_DISABLED

/-- The menu updates in a list of interactions, oldest first: for each `SetMenuItemInfoW`
call the item and the `fState` written. -/
def menuItemStates (l : List Event) : List (Nat × Nat) :=
  l.filterMap fun e =>
    match e with
    | Event.call Api.SetMenuItemInfoW [_, item, _, fState] => some (item.toNat, fState.toNat)
    | _ => none

/-- The styles written in a list of interactions, oldest first: the last argument of each
`SetWindowLongPtrW(hWnd, GWL_STYLE, style)`. -/
def stylesWritten (l : List Event) : List Int :=
  l.filterMap fun e =>
    match e with
    | Event.call Api.SetWindowLongPtrW [_, _, style] => some style
    | _ => none

/-- Whether an interaction is with the operating system (a load, a lookup, a registry read or
a system call), as opposed to one of the two hand-overs of the margins to Qt. -/
def Event.isSystem : Event → Bool
  | Event.call Api.QWindow_setProperty _ => false
  | Event.call Api.QPlatformWindow_setCustomMargins _ => false
  | _ => true

/-- Windows 7 at 192 DPI on which `GetSystemMetrics` answers 0 for every index, so that both
queries behind the resize border yield 0. -/
def win7At192NoMetrics : OS := { win7At192 with GetSystemMetrics := fun _ => 0 }

/-- The same with composition switched off (the classic theme). -/
def win7ClassicAt192NoMetrics : OS :=
  { win7Classic with GetDeviceCaps := fun _ _ => 192, GetSystemMetrics := fun _ => 0 }

/-- Windows 7 running a process that is not DPI aware (`IsProcessDPIAware` is `FALSE`). -/
def win7Unaware : OS := { win7 with IsProcessDPIAware := 0 }

/-- Windows 8.1 on which `GetProcessDpiAwareness` fails (`E_INVALIDARG`). -/
def win81AwarenessFails : OS := { win81 with GetProcessDpiAwareness := (-2147024809, 0) }

/-- Windows 10 22H2 whose personalization key holds no `AppsUseLightTheme` value. -/
def win10NoThemeValue : OS := { win10 with registry := fun _ _ => none }

/-- Windows 10 22H2 with `AppsUseLightTheme` set to 1. -/
def win10LightTheme : OS :=
  { win10 with
    registry := fun key name =>
      match key, name with
      | RegKey.Personalize, RegName.AppsUseLightTheme => some (RegData.uint 1)
      | _, _ => none }

/-- Windows 10 22H2 with an `AppsUseLightTheme` value that does not convert to an unsigned
integer. -/
def win10UnreadableThemeValue : OS :=
  { win10 with
    registry := fun key name =>
      match key, name with
      | RegKey.Personalize, RegName.AppsUseLightTheme => some RegData.notConvertible
      | _, _ => none }

/-- Windows 7 at 208 DPI on which `GetSystemMetrics` answers 0 for every index. -/
def win7At208NoMetrics : OS :=
  { win7 with GetDeviceCaps := fun _ _ => 208, GetSystemMetrics := fun _ => 0 }

/-- The sample constants with an Aero border of 57. -/
def constantsAero57 : Constants := { sampleConstants with kDefaultResizeBorderThicknessAero := 57 }

/-- Windows 7 with a process that is not DPI aware and a raw metric of 57 for every index. -/
def win7UnawareMetric57 : OS := { win7Unaware with GetSystemMetrics := fun _ => 57 }

/-! ## Assertions and the build -/

@[simp] theorem run_pure {α : Type} (a : α) (s : Proc) : (pure a : Op α).run s = (a, s) := rfl
@[simp] theorem run_bind {α β : Type} (x : Op α) (f : α → Op β) (s : Proc) :
    (x >>= f).run s = (f (x.run s).1).run (x.run s).2 := rfl
@[simp] theorem run_ite {α : Type} (c : Prop) [Decidable c] (x y : Op α) (s : Proc) :
    (if c then x else y).run s = if c then x.run s else y.run s := by
  split <;> rfl
@[simp] theorem run_emit (e : Event) (s : Proc) :
    (emit e).run s = ((), { s with log := s.log ++ [e] }) := rfl
@[simp] theorem run_sys (api : Api) (args : List Int) (s : Proc) :
    (sys api args).run s = ((), { s with log := s.log ++ [Event.call api args] }) := rfl
@[simp] theorem run_readRegistry (os : OS) (key : RegKey) (name : RegName) (s : Proc) :
    (readRegistry os key name).run s =
      (os.registry key name, { s with log := s.log ++ [Event.registryValue key name] }) := rfl

theorem lazyBind_idem (os : OS) (dll : Dll) (symbol : Api) (st : Slot) :
    (lazyBind os dll symbol (lazyBind os dll symbol st).1).1 = (lazyBind os dll symbol st).1 := by
  rcases st with ⟨t, f⟩
  cases t <;> cases f <;> cases h1 : os.LoadLibraryExW dll <;> cases h2 : os.GetProcAddress dll symbol <;>
    simp [lazyBind, h1, h2]

theorem bindGetSystemMetricsForDpi_idem (os : OS) (st : Slot) :
    (bindGetSystemMetricsForDpi os (bindGetSystemMetricsForDpi os st).1).1
      = (bindGetSystemMetricsForDpi os st).1 := by
  unfold bindGetSystemMetricsForDpi
  split
  · exact lazyBind_idem _ _ _ _
  · rfl

theorem bindGetDPIForWindow_idem (os : OS) (st : DpiStatics) :
    (bindGetDPIForWindow os (bindGetDPIForWindow os st).1).1 = (bindGetDPIForWindow os st).1 := by
  rcases st with ⟨t, a, b, c, d⟩
  unfold bindGetDPIForWindow
  cases __IsWin10RS1OrGreater os <;> cases os.isWin8Point1OrGreater <;>
  cases os.LoadLibraryExW Dll.User32 <;> cases os.LoadLibraryExW Dll.SHCore <;>
  cases t <;> cases a <;> cases b <;> cases c <;> cases d <;> simp

theorem bindGetDPIAwarenessForWindow_idem (os : OS) (st : AwarenessStatics) :
    (bindGetDPIAwarenessForWindow os (bindGetDPIAwarenessForWindow os st).1).1
      = (bindGetDPIAwarenessForWindow os st).1 := by
  rcases st with ⟨t, a, b, c, d⟩
  unfold bindGetDPIAwarenessForWindow
  cases __IsWin10RS1OrGreater os <;> cases os.isWin8Point1OrGreater <;>
  cases os.LoadLibraryExW Dll.User32 <;> cases os.LoadLibraryExW Dll.SHCore <;>
  cases t <;> cases a <;> cases b <;> cases c <;> cases d <;> simp

theorem steady_pure {α : Type} (os : OS) (a : α) : Steady os (pure a : Op α) :=
  ⟨fun _ => rfl, fun _ _ _ => rfl⟩

theorem steady_bind {α β : Type} {os : OS} {x : Op α} {f : α → Op β}
    (hx : Steady os x) (hf : ∀ a, Steady os (f a)) : Steady os (x >>= f) := by
  refine ⟨fun s => ?_, fun s t h => ?_⟩
  · rw [run_bind, (hf _).1, hx.1]
  · rw [run_bind, run_bind, hx.2 s t h]
    exact (hf _).2 _ _ (by rw [hx.1, hx.1, h])

theorem steady_ite {α : Type} {os : OS} (c : Prop) [Decidable c] {x y : Op α}
    (hx : Steady os x) (hy : Steady os y) : Steady os (if c then x else y) := by
  split
  · exact hx
  · exact hy

theorem steady_emit (os : OS) (e : Event) : Steady os (emit e) :=
  ⟨fun _ => rfl, fun _ _ _ => rfl⟩

theorem steady_sys (os : OS) (api : Api) (args : List Int) : Steady os (sys api args) :=
  ⟨fun _ => rfl, fun _ _ _ => rfl⟩

theorem steady_readRegistry (os : OS) (key : RegKey) (name : RegName) :
    Steady os (readRegistry os key name) :=
  ⟨fun _ => rfl, fun _ _ _ => rfl⟩

theorem steady_resolveGetDPIForWindow (os : OS) : Steady os (resolveGetDPIForWindow os) := by
  refine ⟨fun s => ?_, fun s t h => ?_⟩
  · simp only [settle, Op.run, resolveGetDPIForWindow, bindGetDPIForWindow_idem]
  · have := congrArg Proc.sGetDPIForWindow h
    simpa [settle] using this

theorem steady_resolveGetSystemMetricsForDpi (os : OS) :
    Steady os (resolveGetSystemMetricsForDpi os) := by
  refine ⟨fun s => ?_, fun s t h => ?_⟩
  · simp only [settle, Op.run, resolveGetSystemMetricsForDpi,
      bindGetSystemMetricsForDpi_idem]
  · have := congrArg Proc.sGetSystemMetricsForDpi h
    simp only [settle] at this
    simp only [Op.run, resolveGetSystemMetricsForDpi, this]



theorem steady_dpiFromMonitor (os : OS) (screen : Nat) : Steady os (dpiFromMonitor os screen) := by
  unfold dpiFromMonitor
  repeat' first
    | with_reducible exact steady_pure _ _
    | with_reducible exact steady_sys _ _ _
    | with_reducible apply steady_bind
    | intro _
    | split
    | dsimp only

theorem steady_getDPIForWindow (os : OS) (winId : WId) : Steady os (getDPIForWindow os winId) := by
  unfold getDPIForWindow dpiFromWindow dpiFromWindowMonitor dpiFromProcessOrSystem
    dpiFromCursorMonitor dpiFromDeviceContext
  repeat' first
    | with_reducible exact steady_pure _ _
    | with_reducible exact steady_sys _ _ _
    | with_reducible exact steady_resolveGetDPIForWindow _
    | with_reducible exact steady_dpiFromMonitor _ _
    | with_reducible apply steady_bind
    | intro _
    | split
    | dsimp only

theorem steady_resolveGetDPIAwarenessForWindow (os : OS) :
    Steady os (resolveGetDPIAwarenessForWindow os) := by
  refine ⟨fun s => ?_, fun s t h => ?_⟩
  · simp only [settle, Op.run, resolveGetDPIAwarenessForWindow,
      bindGetDPIAwarenessForWindow_idem]
  · have := congrArg Proc.sGetDPIAwarenessForWindow h
    simpa [settle] using this

theorem steady_resolveShouldAppsUseDarkMode (os : OS) :
    Steady os (resolveShouldAppsUseDarkMode os) := by
  refine ⟨fun s => ?_, fun s t h => ?_⟩
  · simp only [settle, Op.run, resolveShouldAppsUseDarkMode, lazyBind_idem]
  · have := congrArg Proc.sShouldAppsUseDarkMode h
    simp only [settle] at this
    simp only [Op.run, resolveShouldAppsUseDarkMode, this]

theorem steady_resolveDwmIsCompositionEnabled (os : OS) :
    Steady os (resolveDwmIsCompositionEnabled os) := by
  refine ⟨fun s => ?_, fun s t h => ?_⟩
  · simp only [settle, Op.run, resolveDwmIsCompositionEnabled, lazyBind_idem]
  · have := congrArg Proc.sIsCompositionEnabled h
    simp only [settle] at this
    simp only [Op.run, resolveDwmIsCompositionEnabled, this]

theorem steady_resolveDwmExtendFrameIntoClientArea (os : OS) :
    Steady os (resolveDwmExtendFrameIntoClientArea os) := by
  refine ⟨fun s => ?_, fun s t h => ?_⟩
  · simp only [settle, Op.run, resolveDwmExtendFrameIntoClientArea,
      lazyBind_idem]
  · have := congrArg Proc.sUpdateFrameMargins h
    simp only [settle] at this
    simp only [Op.run, resolveDwmExtendFrameIntoClientArea, this]

theorem steady_resolveDwmGetColorizationColor (os : OS) :
    Steady os (resolveDwmGetColorizationColor os) := by
  refine ⟨fun s => ?_, fun s t h => ?_⟩
  · simp only [settle, Op.run, resolveDwmGetColorizationColor, lazyBind_idem]
  · have := congrArg Proc.sGetColorizationColor h
    simp only [settle] at this
    simp only [Op.run, resolveDwmGetColorizationColor, this]

theorem steady_resolveDwmGetWindowAttribute (os : OS) :
    Steady os (resolveDwmGetWindowAttribute os) := by
  refine ⟨fun s => ?_, fun s t h => ?_⟩
  · simp only [settle, Op.run, resolveDwmGetWindowAttribute, lazyBind_idem]
  · have := congrArg Proc.sGetWindowVisibleFrameBorderThickness h
    simp only [settle] at this
    simp only [Op.run, resolveDwmGetWindowAttribute, this]

theorem steady_getDPIAwarenessForWindow (os : OS) (winId : WId) :
    Steady os (getDPIAwarenessForWindow os winId) := by
  unfold getDPIAwarenessForWindow awarenessFromContext
  repeat' first
    | with_reducible exact steady_pure _ _
    | with_reducible exact steady_sys _ _ _
    | with_reducible exact steady_resolveGetDPIAwarenessForWindow _
    | with_reducible apply steady_bind
    | intro _
    | split
    | dsimp only

theorem steady___GetSystemMetricsForDpi (os : OS) (nIndex : Int) (dpi : Nat) :
    Steady os (__GetSystemMetricsForDpi os nIndex dpi) := by
  unfold __GetSystemMetricsForDpi
  repeat' first
    | with_reducible exact steady_pure _ _
    | with_reducible exact steady_sys _ _ _
    | with_reducible exact steady_resolveGetSystemMetricsForDpi _
    | with_reducible exact steady_getDPIAwarenessForWindow _ _
    | with_reducible exact steady_getDPIForWindow _ _
    | with_reducible apply steady_bind
    | intro _
    | split
    | dsimp only

theorem steady_resultFromRegistry (os : OS) : Steady os (resultFromRegistry os) := by
  unfold resultFromRegistry
  repeat' first
    | with_reducible exact steady_pure _ _
    | with_reducible exact steady_readRegistry _ _ _
    | with_reducible apply steady_bind
    | intro _

theorem steady___ShouldAppsUseDarkMode (os : OS) : Steady os (__ShouldAppsUseDarkMode os) := by
  unfold __ShouldAppsUseDarkMode
  repeat' first
    | with_reducible exact steady_pure _ _
    | with_reducible exact steady_sys _ _ _
    | with_reducible exact steady_resultFromRegistry _
    | with_reducible exact steady_resolveShouldAppsUseDarkMode _
    | with_reducible apply steady_bind
    | intro _
    | split

theorem steady_isCompositionEnabled (os : OS) : Steady os (isCompositionEnabled os) := by
  unfold isCompositionEnabled
  repeat' first
    | with_reducible exact steady_pure _ _
    | with_reducible exact steady_sys _ _ _
    | with_reducible exact steady_readRegistry _ _ _
    | with_reducible exact steady_resolveDwmIsCompositionEnabled _
    | with_reducible apply steady_bind
    | intro _
    | split
    | dsimp only

theorem steady_isMaximized (os : OS) (winId : WId) : Steady os (isMaximized os winId) := by
  unfold isMaximized
  repeat' first
    | with_reducible exact steady_pure _ _
    | with_reducible exact steady_sys _ _ _
    | with_reducible apply steady_bind
    | intro _
    | split

theorem steady_isFullScreened (os : OS) (winId : WId) : Steady os (isFullScreened os winId) := by
  unfold isFullScreened
  repeat' first
    | with_reducible exact steady_pure _ _
    | with_reducible exact steady_sys _ _ _
    | with_reducible apply steady_bind
    | intro _
    | split
    | dsimp only

theorem steady_getWindowVisibleFrameBorderThickness (os : OS) (k : Constants) (winId : WId) :
    Steady os (getWindowVisibleFrameBorderThickness os k winId) := by
  unfold getWindowVisibleFrameBorderThickness
  repeat' first
    | with_reducible exact steady_pure _ _
    | with_reducible exact steady_sys _ _ _
    | with_reducible exact steady_resolveDwmGetWindowAttribute _
    | with_reducible apply steady_bind
    | intro _
    | split
    | dsimp only

theorem steady_getSystemMetricBody {self : WId → SystemMetric → Bool → Op Nat} (os : OS)
    (k : Constants) (hself : ∀ w m d, Steady os (self w m d))
    (winId : WId) (metric : SystemMetric) (dpiScale : Bool) :
    Steady os (getSystemMetricBody self os k winId metric dpiScale) := by
  unfold getSystemMetricBody
  repeat' first
    | with_reducible exact steady_pure _ _
    | with_reducible exact hself _ _ _
    | with_reducible exact steady_getDPIForWindow _ _
    | with_reducible exact steady___GetSystemMetricsForDpi _ _ _
    | with_reducible exact steady_isCompositionEnabled _
    | with_reducible exact steady_isMaximized _ _
    | with_reducible exact steady_isFullScreened _ _
    | with_reducible exact steady_getWindowVisibleFrameBorderThickness _ _ _
    | with_reducible apply steady_bind
    | intro _
    | split
    | dsimp only

theorem steady_getSystemMetric (os : OS) (k : Constants) (winId : WId) (metric : SystemMetric)
    (dpiScale : Bool) : Steady os (getSystemMetric os k winId metric dpiScale) :=
  steady_getSystemMetricBody os k
    (steady_getSystemMetricBody os k (fun _ _ _ => steady_pure os 0)) winId metric dpiScale

/-- The recursive equation of the source: `getSystemMetric` is its body with the recursive
calls going to `getSystemMetric` itself. -/
theorem getSystemMetric_unfold (os : OS) (k : Constants) (winId : WId) (metric : SystemMetric)
    (dpiScale : Bool) :
    getSystemMetric os k winId metric dpiScale
      = getSystemMetricBody (getSystemMetric os k) os k winId metric dpiScale := by
  cases metric <;> rfl

theorem run_resolveDwmIsCompositionEnabled (os : OS) (s : Proc) :
    (resolveDwmIsCompositionEnabled os).run s =
      ((lazyBind os Dll.DwmApi Api.DwmIsCompositionEnabled s.sIsCompositionEnabled).1.func,
        { s with
          sIsCompositionEnabled :=
            (lazyBind os Dll.DwmApi Api.DwmIsCompositionEnabled s.sIsCompositionEnabled).1
          log := s.log
            ++ (lazyBind os Dll.DwmApi Api.DwmIsCompositionEnabled s.sIsCompositionEnabled).2 }) :=
  rfl

theorem scaleUp_spec (d : Nat) : ∀ (fuel a : Nat),
    4503599627370496 * d ≤ a * 2 ^ fuel →
    4503599627370496 * d ≤ a * 2 ^ QReal.scaleUp fuel a d ∧
    (a < 4503599627370496 * d → a * 2 ^ QReal.scaleUp fuel a d < 9007199254740992 * d) ∧
    (4503599627370496 * d ≤ a → QReal.scaleUp fuel a d = 0) := by
  intro fuel
  induction fuel with
  | zero =>
    intro a h
    simp only [pow_zero, mul_one] at h
    refine ⟨by simpa [QReal.scaleUp] using h, fun h' => absurd h (by omega), fun _ => rfl⟩
  | succ fuel ih =>
    intro a h
    unfold QReal.scaleUp
    split
    · rename_i hlt
      have h2 : 4503599627370496 * d ≤ 2 * a * 2 ^ fuel := by
        rw [pow_succ] at h
        nlinarith
      obtain ⟨i1, i2, i3⟩ := ih (2 * a) h2
      have e : a * 2 ^ (QReal.scaleUp fuel (2 * a) d + 1)
          = 2 * a * 2 ^ QReal.scaleUp fuel (2 * a) d := by
        rw [pow_succ]; ring
      refine ⟨by rw [e]; exact i1, fun _ => ?_, fun h' => absurd h' (by omega)⟩
      rw [e]
      by_cases hc : 2 * a < 4503599627370496 * d
      · exact i2 hc
      · rw [i3 (by omega)]
        omega
    · rename_i hge
      refine ⟨by simpa using (by omega : 4503599627370496 * d ≤ a), fun h' => absurd h' hge,
        fun _ => rfl⟩

theorem scaleDown_spec (a : Nat) : ∀ (fuel d : Nat),
    a < 9007199254740992 * d * 2 ^ fuel →
    a < 9007199254740992 * d * 2 ^ QReal.scaleDown fuel a d ∧
    (9007199254740992 * d ≤ a → 4503599627370496 * d * 2 ^ QReal.scaleDown fuel a d ≤ a) ∧
    (a < 9007199254740992 * d → QReal.scaleDown fuel a d = 0) := by
  intro fuel
  induction fuel with
  | zero =>
    intro d h
    simp only [pow_zero, mul_one] at h
    refine ⟨by simpa [QReal.scaleDown] using h, fun h' => absurd h (by omega), fun _ => rfl⟩
  | succ fuel ih =>
    intro d h
    unfold QReal.scaleDown
    split
    · rename_i hge
      have h2 : a < 9007199254740992 * (2 * d) * 2 ^ fuel := by
        rw [pow_succ] at h
        nlinarith
      obtain ⟨i1, i2, i3⟩ := ih (2 * d) h2
      have e : ∀ c : Nat, c * d * 2 ^ (QReal.scaleDown fuel a (2 * d) + 1)
          = c * (2 * d) * 2 ^ QReal.scaleDown fuel a (2 * d) := by
        intro c; rw [pow_succ]; ring
      refine ⟨by rw [e]; exact i1, fun _ => ?_, fun h' => absurd h' (by omega)⟩
      rw [e]
      by_cases hc : 9007199254740992 * (2 * d) ≤ a
      · exact i2 hc
      · rw [i3 (by omega)]
        omega
    · rename_i hlt
      refine ⟨by simpa using (by omega : a < 9007199254740992 * d), fun h' => absurd h' hlt,
        fun _ => rfl⟩

theorem roundHalfEven_ge (n d K : Nat) (hd : 0 < d) (h : K * d ≤ n) :
    K ≤ QReal.roundHalfEven n d := by
  have hm : K ≤ n / d := (Nat.le_div_iff_mul_le hd).2 h
  unfold QReal.roundHalfEven
  split_ifs <;> omega

theorem roundHalfEven_le (n d K : Nat) (hd : 0 < d) (h : n ≤ K * d) :
    QReal.roundHalfEven n d ≤ K := by
  have hm : n / d ≤ K := by
    calc n / d ≤ K * d / d := Nat.div_le_div_right h
      _ = K := Nat.mul_div_cancel K hd
  have e := Nat.div_add_mod n d
  by_cases hr : n % d = 0
  · unfold QReal.roundHalfEven
    rw [hr]
    simp only [mul_zero, hd, if_true]
    exact hm
  · have hlt : n / d < K := by
      by_contra hc
      have hK : K = n / d := by omega
      have : d * (n / d) + n % d ≤ (n / d) * d := by rw [e, ← hK]; exact h
      have : d * (n / d) = (n / d) * d := Nat.mul_comm _ _
      omega
    unfold QReal.roundHalfEven
    split_ifs <;> omega

/-- The normalisation brings the fraction into `[2^52, 2^53)`. -/
theorem norm_spec (a d : Nat) (ha : 0 < a) (hd : 0 < d) :
    (QReal.scaleUp (d + 52) a d = 0 ∨ QReal.scaleDown a a d = 0) ∧
    4503599627370496 * (d * 2 ^ QReal.scaleDown a a d) ≤ a * 2 ^ QReal.scaleUp (d + 52) a d ∧
    a * 2 ^ QReal.scaleUp (d + 52) a d < 9007199254740992 * (d * 2 ^ QReal.scaleDown a a d) := by
  have hu : 4503599627370496 * d ≤ a * 2 ^ (d + 52) := by
    have h1 : d < 2 ^ d := Nat.lt_two_pow d
    have h2 : (2 : Nat) ^ (d + 52) = 2 ^ d * 4503599627370496 := by rw [pow_add]; norm_num
    rw [h2]
    nlinarith
  have hdn : a < 9007199254740992 * d * 2 ^ a := by
    have h1 : a < 2 ^ a := Nat.lt_two_pow a
    nlinarith
  obtain ⟨u1, u2, u3⟩ := scaleUp_spec d (d + 52) a hu
  obtain ⟨d1, d2, d3⟩ := scaleDown_spec a a d hdn
  by_cases c1 : a < 4503599627370496 * d
  · have hk := d3 (by omega)
    rw [hk]
    simp only [pow_zero, mul_one]
    exact ⟨Or.inr trivial, u1, u2 c1⟩
  · have hk := u3 (by omega)
    rw [hk]
    simp only [pow_zero, mul_one]
    by_cases c2 : a < 9007199254740992 * d
    · rw [d3 c2]
      simp only [pow_zero, mul_one]
      exact ⟨Or.inl trivial, by omega, c2⟩
    · refine ⟨Or.inl trivial, ?_, ?_⟩
      · have := d2 (by omega)
        rw [← mul_assoc]; exact this
      · rw [← mul_assoc]; exact d1

/-- Rounding from above: a fraction in `[2^52, 2^53)` after normalisation that lies at or below
`M / 2^Q` with `M < 2^53` rounds to a value at or below `M / 2^Q`. -/
theorem round_upper (a d M Q ku kd : Nat) (hd : 0 < d) (hM : M < 9007199254740992)
    (hk : ku = 0 ∨ kd = 0)
    (h1 : 4503599627370496 * (d * 2 ^ kd) ≤ a * 2 ^ ku)
    (h : a * 2 ^ Q ≤ M * d) :
    QReal.roundHalfEven (a * 2 ^ ku) (d * 2 ^ kd) * 2 ^ kd * 2 ^ Q ≤ M * 2 ^ ku := by
  have hQ : 0 < 2 ^ Q := by positivity
  have hkd : kd = 0 := by
    by_contra hne
    have hku : ku = 0 := by
      rcases hk with h0 | h0
      · exact h0
      · exact absurd h0 hne
    subst hku
    obtain ⟨j, rfl⟩ : ∃ j, kd = j + 1 := ⟨kd - 1, by omega⟩
    have hj : 0 < 2 ^ j := by positivity
    rw [pow_zero, mul_one, pow_succ] at h1
    have h3 : 9007199254740992 * d ≤ a := by nlinarith
    have h4 : a ≤ a * 2 ^ Q := Nat.le_mul_of_pos_right a hQ
    have h5 : M * d < 9007199254740992 * d := by nlinarith
    omega
  subst hkd
  simp only [pow_zero, mul_one] at h1 ⊢
  by_cases hc : Q ≤ ku
  · obtain ⟨j, rfl⟩ := Nat.exists_eq_add_of_le hc
    have hj : 0 < 2 ^ j := by positivity
    have hle : QReal.roundHalfEven (a * 2 ^ (Q + j)) d ≤ M * 2 ^ j := by
      apply roundHalfEven_le _ _ _ hd
      rw [pow_add]
      calc a * (2 ^ Q * 2 ^ j) = a * 2 ^ Q * 2 ^ j := by ring
        _ ≤ M * d * 2 ^ j := Nat.mul_le_mul_right _ h
        _ = M * 2 ^ j * d := by ring
    calc QReal.roundHalfEven (a * 2 ^ (Q + j)) d * 2 ^ Q ≤ M * 2 ^ j * 2 ^ Q :=
          Nat.mul_le_mul_right _ hle
      _ = M * 2 ^ (Q + j) := by rw [pow_add]; ring
  · exfalso
    obtain ⟨j, rfl⟩ : ∃ j, Q = ku + (j + 1) := ⟨Q - ku - 1, by omega⟩
    have hj : 0 < 2 ^ j := by positivity
    have e : a * 2 ^ (ku + (j + 1)) = a * 2 ^ ku * (2 ^ j * 2) := by
      rw [pow_add, pow_succ]; ring
    rw [e] at h
    have h3 : 9007199254740992 * d ≤ a * 2 ^ ku * (2 ^ j * 2) := by nlinarith
    have h5 : M * d < 9007199254740992 * d := by nlinarith
    omega

/-- Rounding from below, the mirror image of `round_upper`. -/
theorem round_lower (a d M Q ku kd : Nat) (hd : 0 < d) (hM : M < 9007199254740992)
    (hk : ku = 0 ∨ kd = 0)
    (h1 : 4503599627370496 * (d * 2 ^ kd) ≤ a * 2 ^ ku)
    (h : M * d ≤ a * 2 ^ Q) :
    M * 2 ^ ku ≤ QReal.roundHalfEven (a * 2 ^ ku) (d * 2 ^ kd) * 2 ^ kd * 2 ^ Q := by
  have hQ : 0 < 2 ^ Q := by positivity
  have hkd0 : 0 < 2 ^ kd := by positivity
  have hm : 4503599627370496 ≤ QReal.roundHalfEven (a * 2 ^ ku) (d * 2 ^ kd) :=
    roundHalfEven_ge _ _ _ (by positivity) h1
  by_cases hkd : kd = 0
  · subst hkd
    simp only [pow_zero, mul_one] at h1 hm ⊢
    by_cases hc : Q ≤ ku
    · obtain ⟨j, rfl⟩ := Nat.exists_eq_add_of_le hc
      have hge : M * 2 ^ j ≤ QReal.roundHalfEven (a * 2 ^ (Q + j)) d := by
        apply roundHalfEven_ge _ _ _ hd
        rw [pow_add]
        calc M * 2 ^ j * d = M * d * 2 ^ j := by ring
          _ ≤ a * 2 ^ Q * 2 ^ j := Nat.mul_le_mul_right _ h
          _ = a * (2 ^ Q * 2 ^ j) := by ring
      calc M * 2 ^ (Q + j) = M * 2 ^ j * 2 ^ Q := by rw [pow_add]; ring
        _ ≤ QReal.roundHalfEven (a * 2 ^ (Q + j)) d * 2 ^ Q := Nat.mul_le_mul_right _ hge
    · obtain ⟨j, rfl⟩ : ∃ j, Q = ku + (j + 1) := ⟨Q - ku - 1, by omega⟩
      have hj : 0 < 2 ^ j := by positivity
      have hku : 0 < 2 ^ ku := by positivity
      generalize QReal.roundHalfEven (a * 2 ^ ku) d = m at hm ⊢
      have e : (2 : Nat) ^ (ku + (j + 1)) = 2 ^ ku * (2 ^ j * 2) := by
        rw [pow_add, pow_succ]
      rw [e]
      calc M * 2 ^ ku ≤ 9007199254740992 * 2 ^ ku := Nat.mul_le_mul_right _ (by omega)
        _ = 4503599627370496 * (2 ^ ku * 2) := by ring
        _ ≤ m * (2 ^ ku * (2 ^ j * 2)) := by
          apply Nat.mul_le_mul hm
          nlinarith
  · have hku : ku = 0 := by
      rcases hk with h0 | h0
      · exact h0
      · exact absurd h0 hkd
    subst hku
    obtain ⟨j, rfl⟩ : ∃ j, kd = j + 1 := ⟨kd - 1, by omega⟩
    have hj : 0 < 2 ^ j := by positivity
    generalize QReal.roundHalfEven (a * 2 ^ 0) (d * 2 ^ (j + 1)) = m at hm ⊢
    rw [pow_zero, mul_one, pow_succ]
    calc M ≤ 4503599627370496 * 2 := by omega
      _ ≤ m * (2 ^ j * 2) * 2 ^ Q := by
        have : 1 ≤ 2 ^ j * 2 ^ Q := Nat.one_le_iff_ne_zero.2 (by positivity)
        nlinarith

/-- Rounding to `double` keeps a non-negative value between any two bounds `lo / 2^Q` and
`hi / 2^Q` that are themselves `double`s (`hi < 2^53`): it is monotone and fixes the values it
can represent. -/
theorem within_toDouble (q : QReal) (lo hi Q : Nat) (hhi : hi < 9007199254740992)
    (h : QReal.Within q lo hi Q) : QReal.Within (QReal.toDouble q) lo hi Q := by
  obtain ⟨hd, hn, hl, hu⟩ := h
  by_cases h0 : q.num = 0
  · have : QReal.toDouble q = q := by simp [QReal.toDouble, h0]
    rw [this]
    exact ⟨hd, hn, hl, hu⟩
  · obtain ⟨a, ha⟩ : ∃ a : Nat, q.num = (a : Int) := ⟨q.num.toNat, by omega⟩
    have hapos : 0 < a := by omega
    have hlo : lo < 9007199254740992 := by
      have : (lo : Int) * q.den ≤ (hi : Int) * q.den := le_trans hl hu
      have hdI : (0 : Int) < q.den := by exact_mod_cast hd
      have := le_of_mul_le_mul_right this hdI
      omega
    have hsign : q.num.sign = 1 := by rw [ha]; exact Int.sign_eq_one_of_pos (by omega)
    have hnat : q.num.natAbs = a := by rw [ha]; rfl
    obtain ⟨n1, n2, _⟩ := norm_spec a q.den hapos hd
    rw [ha] at hl hu
    have hlN : lo * q.den ≤ a * 2 ^ Q := by exact_mod_cast hl
    have huN : a * 2 ^ Q ≤ hi * q.den := by exact_mod_cast hu
    have U := round_upper a q.den hi Q _ _ hd hhi n1 n2 huN
    have L := round_lower a q.den lo Q _ _ hd hlo n1 n2 hlN
    have hden : q.den ≠ 0 := by omega
    simp only [QReal.toDouble, h0, hden, or_self, if_false, hsign, hnat, one_mul]
    refine ⟨by positivity, by positivity, ?_, ?_⟩
    · push_cast
      exact_mod_cast L
    · push_cast
      exact_mod_cast U


/-! ## `qRound` on the values the code rounds -/

theorem trunc_of_within (q : QReal) (lo hi Q k : Nat) (h : QReal.Within q lo hi Q)
    (hlo : k * 2 ^ Q ≤ lo) (hhi : hi < (k + 1) * 2 ^ Q) : q.trunc = (k : Int) := by
  obtain ⟨hd, hn, hl, hu⟩ := h
  have hdI : (0 : Int) < q.den := by exact_mod_cast hd
  have hQ : (0 : Int) < 2 ^ Q := by positivity
  have hloI : (k : Int) * 2 ^ Q ≤ lo := by exact_mod_cast hlo
  have hhiI : (hi : Int) < ((k : Int) + 1) * 2 ^ Q := by exact_mod_cast hhi
  have h1 : (k : Int) * q.den ≤ q.num := by
    have : (k : Int) * q.den * 2 ^ Q ≤ q.num * 2 ^ Q := by
      calc (k : Int) * q.den * 2 ^ Q = (k : Int) * 2 ^ Q * q.den := by ring
        _ ≤ lo * q.den := mul_le_mul_of_nonneg_right hloI hdI.le
        _ ≤ q.num * 2 ^ Q := hl
    exact le_of_mul_le_mul_right this hQ
  have h2 : q.num < ((k : Int) + 1) * q.den := by
    have : q.num * 2 ^ Q < ((k : Int) + 1) * q.den * 2 ^ Q := by
      calc q.num * 2 ^ Q ≤ hi * q.den := hu
        _ < ((k : Int) + 1) * 2 ^ Q * q.den := mul_lt_mul_of_pos_right hhiI hdI
        _ = ((k : Int) + 1) * q.den * 2 ^ Q := by ring
    exact lt_of_mul_lt_mul_right this hQ.le
  unfold QReal.trunc
  rw [Int.tdiv_eq_ediv hn hdI.le]
  have a1 := (Int.le_ediv_iff_mul_le hdI).2 h1
  have a2 := (Int.ediv_lt_iff_lt_mul hdI).2 h2
  omega

theorem within_nonneg (q : QReal) (lo hi Q : Nat) (h : QReal.Within q lo hi Q) :
    QReal.le (QReal.ofInt 0) q = true := by
  obtain ⟨_, hn, _, _⟩ := h
  simp only [QReal.le, QReal.ofInt, decide_eq_true_eq]
  simpa using hn

/-- Adding `0.5` to a value between two `double` bounds, before the sum is rounded. -/
theorem within_add_half (q : QReal) (lo hi Q : Nat) (h : QReal.Within q lo hi (Q + 1)) :
    QReal.Within ⟨q.num * QReal.half.den + QReal.half.num * q.den, q.den * QReal.half.den⟩
      (lo + 2 ^ Q) (hi + 2 ^ Q) (Q + 1) := by
  obtain ⟨hd, hn, hl, hu⟩ := h
  have hdI : (0 : Int) < q.den := by exact_mod_cast hd
  have hQ : (0 : Int) < 2 ^ Q := by positivity
  simp only [QReal.half, QReal.Within] at *
  rw [pow_succ] at hl hu ⊢
  push_cast
  refine ⟨by positivity, by positivity, ?_, ?_⟩
  · nlinarith
  · nlinarith

/-- The product with an integer of a value between two `double` bounds, before it is
rounded. -/
theorem within_mul_ofInt (v : Nat) (q : QReal) (lo hi Q : Nat) (h : QReal.Within q lo hi Q) :
    QReal.Within ⟨(QReal.ofInt v).num * q.num, (QReal.ofInt v).den * q.den⟩
      (v * lo) (v * hi) Q := by
  obtain ⟨hd, hn, hl, hu⟩ := h
  simp only [QReal.ofInt, QReal.Within, one_mul] at *
  push_cast
  have hv : (0 : Int) ≤ v := by positivity
  refine ⟨hd, by positivity, ?_, ?_⟩
  · nlinarith [mul_le_mul_of_nonneg_left hl hv]
  · nlinarith [mul_le_mul_of_nonneg_left hu hv]

/-- The quotient of a non-negative integer by 96 or by 2, before it is rounded. -/
theorem within_div_ofInt (n b lo hi Q : Nat) (hb : 0 < b)
    (hl : lo * b ≤ n * 2 ^ Q) (hu : n * 2 ^ Q ≤ hi * b) :
    QReal.Within ⟨(QReal.ofInt n).num * (QReal.ofInt b).den * (QReal.ofInt b).num.sign,
      (QReal.ofInt n).den * (QReal.ofInt b).num.natAbs⟩ lo hi Q := by
  have hs : ((b : Int)).sign = 1 := Int.sign_eq_one_of_pos (by exact_mod_cast hb)
  simp only [QReal.ofInt, QReal.Within, hs, Int.natAbs_ofNat, one_mul, mul_one, Nat.cast_one]
  refine ⟨hb, by positivity, by exact_mod_cast hl, by exact_mod_cast hu⟩

/-- The rounding of a value that lies between two `double` bounds within one unit: the value
of `qRound(d)` for such a `d >= 0`. -/
theorem qRound_of_within (q : QReal) (lo hi Q k : Nat) (h : QReal.Within q lo hi (Q + 1))
    (hhi : hi + 2 ^ Q < 9007199254740992)
    (hlo : k * 2 ^ (Q + 1) ≤ lo + 2 ^ Q) (hk : hi + 2 ^ Q < (k + 1) * 2 ^ (Q + 1)) :
    qRound q = (k : Int) := by
  have hw := within_toDouble _ _ _ _ hhi (within_add_half q lo hi Q h)
  simp only [qRound, within_nonneg q lo hi (Q + 1) h, if_true, QReal.add]
  exact trunc_of_within _ _ _ _ k hw hlo hk

/-- Rounding an integer: `qRound(static_cast<qreal>(v))` for `0 <= v < 2^32`. -/
theorem qRound_ofInt (v : Nat) (hv : v < 4294967296) : qRound (QReal.ofInt v) = (v : Int) := by
  have h0 : QReal.Within (QReal.ofInt v) (2 * v) (2 * v) 1 := by
    simp only [QReal.Within, QReal.ofInt, pow_one, Nat.cast_one, mul_one]
    push_cast
    refine ⟨by decide, by positivity, ?_, ?_⟩ <;> omega
  exact qRound_of_within _ (2 * v) (2 * v) 0 v h0 (by omega) (by omega) (by omega)

/-- Scaling the 1-pixel border by `dpi / 96.0` and rounding: the value of
`qRound(static_cast<qreal>(1) * dpr)` with `dpr = dpi / 96.0`, for every 32-bit `dpi`.  The
quotient is not a `double` in general, yet the rounding errors never reach the next half. -/
theorem qRound_unit_scaled (dpi : Nat) (hdpi : dpi < 4294967296) :
    qRound ((QReal.ofInt 1).mul ((QReal.ofInt dpi).div (QReal.ofInt USER_DEFAULT_SCREEN_DPI)))
      = (((dpi + 48) / 96 : Nat) : Int) := by
  have h0 := within_div_ofInt dpi 96 (128 * ((dpi + 48) / 96) - 64)
    (128 * ((dpi + 48) / 96) + 63) 7 (by decide) (by omega) (by omega)
  have h1 := within_toDouble _ _ _ _ (by omega) h0
  have h2 := within_mul_ofInt 1 _ _ _ _ h1
  have h3 := within_toDouble _ _ _ _ (by omega) h2
  simp only [one_mul] at h3
  exact qRound_of_within _ _ _ 6 ((dpi + 48) / 96) h3 (by omega) (by omega) (by omega)

/-- Scaling the integer `v` by `dpi / 96.0` and rounding when `dpi` is a multiple of 3, so that
`dpi / 96.0` is a `double`: the value of `qRound(static_cast<qreal>(v) * dpr)` is then the
exact quotient rounded to nearest, halves up. -/
theorem qRound_scaled (v dpi : Nat) (h3 : 3 ∣ dpi) (hdpi : dpi < 4294967296)
    (hb : v * dpi < 137438953472) :
    qRound ((QReal.ofInt v).mul ((QReal.ofInt dpi).div (QReal.ofInt USER_DEFAULT_SCREEN_DPI)))
      = (((v * dpi + 48) / 96 : Nat) : Int) := by
  obtain ⟨k, rfl⟩ := h3
  have hvk : v * (3 * k) = 3 * (v * k) := by ring
  rw [hvk] at hb ⊢
  have h0 := within_div_ofInt (3 * k) 96 k k 5 (by decide) (by omega) (by omega)
  have h1 := within_toDouble _ _ _ _ (by omega) h0
  have h2 := within_mul_ofInt v _ _ _ _ h1
  have h3 := within_toDouble _ _ _ _ (by omega) h2
  exact qRound_of_within _ _ _ 4 ((3 * (v * k) + 48) / 96) h3 (by omega) (by omega) (by omega)

/-- Scaling by `dpi / 96.0` and rounding when the exact quotient `v * dpi / 96` is not half way
between two integers: the rounding errors of the division and of the product stay below
`1 / 96`, so the result is again the exact quotient rounded to nearest. -/
theorem qRound_scaled_of_not_tie (v dpi : Nat) (hv : v < 131072) (hdpi : dpi < 4294967296)
    (hb : v * dpi < 34359738368) (hr : (v * dpi + 48) % 96 ≠ 0) :
    qRound ((QReal.ofInt v).mul ((QReal.ofInt dpi).div (QReal.ofInt USER_DEFAULT_SCREEN_DPI)))
      = (((v * dpi + 48) / 96 : Nat) : Int) := by
  have h0 := within_div_ofInt dpi 96 (dpi * 16777216 / 96) (dpi * 16777216 / 96 + 1) 24
    (by decide) (by omega) (by omega)
  have h1 := within_toDouble _ _ _ _ (by omega) h0
  have h2 := within_mul_ofInt v _ _ _ _ h1
  have e1 : v * (dpi * 16777216 / 96) * 96 ≤ v * dpi * 16777216 := by
    have : dpi * 16777216 / 96 * 96 ≤ dpi * 16777216 := Nat.div_mul_le_self _ _
    nlinarith
  have e2 : v * dpi * 16777216 < v * (dpi * 16777216 / 96) * 96 + 96 * v + 1 := by
    have : dpi * 16777216 < (dpi * 16777216 / 96 + 1) * 96 := by omega
    nlinarith
  have e3 : v * (dpi * 16777216 / 96 + 1) = v * (dpi * 16777216 / 96) + v := by ring
  rw [e3] at h2
  generalize v * (dpi * 16777216 / 96) = X at h2 e1 e2
  generalize v * dpi = P at hb hr e1 e2 ⊢
  have h3 := within_toDouble _ _ _ _ (by omega) h2
  exact qRound_of_within _ _ _ 23 ((P + 48) / 96) h3 (by omega) (by omega) (by omega)

/-! ## What a run adds to the log, and what it returns -/

theorem newEvents_append (s : Proc) (l : List Event) (t : Proc) (h : t.log = s.log ++ l) :
    newEvents s t = l := by
  simp [newEvents, h]

theorem lazyBind_events (os : OS) (dll : Dll) (symbol : Api) (st : Slot) :
    ∀ e ∈ (lazyBind os dll symbol st).2,
      e = Event.LoadLibraryExW dll ∨ e = Event.GetProcAddress dll symbol := by
  unfold lazyBind
  intro e he
  split at he
  · split at he
    · split at he <;> simp at he
      · rcases he with h | h <;> simp [h]
      · simp [he]
    · simp at he
  · simp at he

theorem emits_pure {α : Type} (P : Event → Prop) (a : α) : Emits P (pure a : Op α) :=
  fun _ => ⟨[], by simp, by simp⟩

theorem emits_bind {α β : Type} {P : Event → Prop} {x : Op α} {f : α → Op β}
    (hx : Emits P x) (hf : ∀ a, Emits P (f a)) : Emits P (x >>= f) := by
  intro s
  obtain ⟨l1, h1, p1⟩ := hx s
  obtain ⟨l2, h2, p2⟩ := hf (x.run s).1 (x.run s).2
  refine ⟨l1 ++ l2, by rw [run_bind, h2, h1, List.append_assoc], ?_⟩
  intro e he
  rcases List.mem_append.1 he with h | h
  · exact p1 e h
  · exact p2 e h

theorem emits_ite {α : Type} {P : Event → Prop} (c : Prop) [Decidable c] {x y : Op α}
    (hx : Emits P x) (hy : Emits P y) : Emits P (if c then x else y) := by
  split
  · exact hx
  · exact hy

theorem emits_sys {P : Event → Prop} (api : Api) (args : List Int)
    (h : P (Event.call api args)) : Emits P (sys api args) :=
  fun _ => ⟨[Event.call api args], rfl, by simpa using h⟩

theorem emits_readRegistry {P : Event → Prop} (os : OS) (key : RegKey) (name : RegName)
    (h : P (Event.registryValue key name)) : Emits P (readRegistry os key name) :=
  fun _ => ⟨[Event.registryValue key name], rfl, by simpa using h⟩

theorem emits_lazyBind {P : Event → Prop} (os : OS) (dll : Dll) (symbol : Api) (st : Slot)
    (h1 : P (Event.LoadLibraryExW dll)) (h2 : P (Event.GetProcAddress dll symbol)) :
    ∀ e ∈ (lazyBind os dll symbol st).2, P e := by
  intro e he
  rcases lazyBind_events os dll symbol st e he with h | h <;> simp [h, h1, h2]

theorem emits_resolveDwmIsCompositionEnabled {P : Event → Prop} (os : OS)
    (h1 : P (Event.LoadLibraryExW Dll.DwmApi))
    (h2 : P (Event.GetProcAddress Dll.DwmApi Api.DwmIsCompositionEnabled)) :
    Emits P (resolveDwmIsCompositionEnabled os) :=
  fun _ => ⟨_, rfl, emits_lazyBind os _ _ _ h1 h2⟩

theorem emits_isCompositionEnabled {P : Event → Prop} (os : OS)
    (h1 : P (Event.LoadLibraryExW Dll.DwmApi))
    (h2 : P (Event.GetProcAddress Dll.DwmApi Api.DwmIsCompositionEnabled))
    (h3 : P (Event.call Api.DwmIsCompositionEnabled []))
    (h4 : P (Event.registryValue RegKey.Dwm RegName.Composition)) :
    Emits P (isCompositionEnabled os) := by
  unfold isCompositionEnabled
  repeat' first
    | with_reducible exact emits_pure _ _
    | with_reducible exact emits_sys _ _ h3
    | with_reducible exact emits_readRegistry _ _ _ h4
    | with_reducible exact emits_resolveDwmIsCompositionEnabled _ h1 h2
    | with_reducible apply emits_bind
    | with_reducible intro _
    | split
    | dsimp only

theorem isCompositionEnabled_frame (os : OS) (s : Proc) :
    ((isCompositionEnabled os).run s).2.sUpdateFrameMargins = s.sUpdateFrameMargins := by
  simp only [isCompositionEnabled, run_bind, run_ite, run_pure, run_sys, run_readRegistry,
    run_resolveDwmIsCompositionEnabled]
  repeat' split
  all_goals rfl

theorem returns_pure {α : Type} {P : α → Prop} (a : α) (h : P a) : Returns P (pure a : Op α) :=
  fun _ => h

theorem returns_bind {α β : Type} {P : β → Prop} {x : Op α} {f : α → Op β}
    (hf : ∀ a, Returns P (f a)) : Returns P (x >>= f) :=
  fun s => hf (x.run s).1 (x.run s).2

theorem returns_ite {α : Type} {P : α → Prop} (c : Prop) [Decidable c] {x y : Op α}
    (hx : Returns P x) (hy : Returns P y) : Returns P (if c then x else y) := by
  split
  · exact hx
  · exact hy

theorem toU32_lt (i : Int) : toU32 i < 4294967296 := by
  unfold toU32
  omega

theorem toU32_of_lt (n : Nat) (h : n < 4294967296) : toU32 (n : Int) = n := by
  unfold toU32
  omega

theorem getDPIForWindow_lt (os : OS) (winId : WId) :
    Returns (fun dpi => dpi < 4294967296) (getDPIForWindow os winId) := by
  unfold getDPIForWindow dpiFromWindow dpiFromWindowMonitor dpiFromProcessOrSystem
    dpiFromCursorMonitor dpiFromDeviceContext dpiFromMonitor
  repeat' first
    | with_reducible exact returns_pure _ (toU32_lt _)
    | with_reducible exact returns_pure _ (Nat.mod_lt _ (by decide))
    | with_reducible exact returns_pure _ (by decide)
    | with_reducible apply returns_bind
    | with_reducible intro _
    | split
    | dsimp only

/-! ## The title bar height, step by step -/

theorem titleBarHeight_run (os : OS) (k : Constants) (winId : WId) (dpiScale : Bool) (s : Proc)
    (h : winId ≠ 0) :
    ∃ s0 s1 s2 s3 : Proc, settle os s0 = settle os s ∧ settle os s1 = settle os s ∧
      settle os s2 = settle os s ∧ settle os s3 = settle os s ∧
      ((getSystemMetric os k winId SystemMetric.TitleBarHeight dpiScale).run s).1 =
        if (if ((isMaximized os winId).run s2).1 then true
            else ((isFullScreened os winId).run s3).1) then
          ((getSystemMetric os k winId SystemMetric.CaptionHeight dpiScale).run s0).1
        else (((getSystemMetric os k winId SystemMetric.CaptionHeight dpiScale).run s0).1
          + ((getSystemMetric os k winId SystemMetric.ResizeBorderThickness dpiScale).run s1).1)
            % 4294967296 := by
  have hd : Steady os (if dpiScale then getDPIForWindow os winId
      else (pure USER_DEFAULT_SCREEN_DPI : Op Nat)) := by
    split
    · exact steady_getDPIForWindow _ _
    · exact steady_pure _ _
  have hc := steady_getSystemMetric os k winId SystemMetric.CaptionHeight dpiScale
  have hr := steady_getSystemMetric os k winId SystemMetric.ResizeBorderThickness dpiScale
  have hm := steady_isMaximized os winId
  refine ⟨_, _, _, _, hd.1 s, (hc.1 _).trans (hd.1 s), (hr.1 _).trans ((hc.1 _).trans (hd.1 s)),
    (hm.1 _).trans ((hr.1 _).trans ((hc.1 _).trans (hd.1 s))), ?_⟩
  rw [getSystemMetric_unfold]
  simp only [getSystemMetricBody, h, if_false, run_bind, run_ite, run_pure]
  split <;> split <;> simp_all

/-! ## The system menu -/

theorem run_setState (os : OS) (menu item : Nat) (enabled : Bool) (s : Proc) :
    (setState os menu item enabled).run s =
      (decide (os.SetMenuItemInfoW menu item (menuState enabled) ≠ 0),
        { s with log := s.log ++
          [Event.call Api.SetMenuItemInfoW [(menu : Int), (item : Int), 0,
            (menuState enabled : Int)]] }) := by
  by_cases h0 : os.SetMenuItemInfoW menu item (menuState enabled) = 0 <;>
    cases enabled <;> simp_all [setState, menuState]

theorem menuItemStates_append (l1 l2 : List Event) :
    menuItemStates (l1 ++ l2) = menuItemStates l1 ++ menuItemStates l2 := by
  simp [menuItemStates]

theorem menuItemStates_none (l : List Event)
    (h : ∀ e ∈ l, ∀ args, e ≠ Event.call Api.SetMenuItemInfoW args) :
    menuItemStates l = [] := by
  induction l with
  | nil => rfl
  | cons e l ih =>
    have h1 := h e (List.mem_cons_self _ _)
    have h2 := ih (fun e he => h e (List.mem_cons_of_mem _ he))
    unfold menuItemStates at h2 ⊢
    rw [List.filterMap_cons]
    split
    · exact h2
    · rename_i b hb
      split at hb
      · exact absurd rfl (h1 _)
      · cases hb

theorem emits_isFullScreened {P : Event → Prop} (os : OS) (winId : WId)
    (h : ∀ api args, api = Api.GetWindowRect ∨ api = Api.MonitorFromWindow
      ∨ api = Api.GetMonitorInfoW → P (Event.call api args)) :
    Emits P (isFullScreened os winId) := by
  unfold isFullScreened
  repeat' first
    | with_reducible exact emits_pure _ _
    | with_reducible exact emits_sys _ _ (h _ _ (by simp))
    | with_reducible apply emits_bind
    | with_reducible intro _
    | split
    | dsimp only

theorem emits_trackSystemMenu {P : Event → Prop} (os : OS) (winId : WId) (menu : Nat)
    (pos : Int × Int)
    (h : ∀ api args, api = Api.GetCursorPos ∨ api = Api.TrackPopupMenu
      ∨ api = Api.PostMessageW → P (Event.call api args)) :
    Emits P (trackSystemMenu os winId menu pos) := by
  unfold trackSystemMenu
  repeat' first
    | with_reducible exact emits_pure _ _
    | with_reducible exact emits_sys _ _ (h _ _ (by simp))
    | with_reducible apply emits_bind
    | with_reducible intro _
    | split
    | dsimp only
theorem run_isMaximized (os : OS) (winId : WId) (s : Proc) (h : winId ≠ 0) :
    (isMaximized os winId).run s =
      (os.IsMaximized winId != 0,
        { s with log := s.log ++ [Event.call Api.IsMaximized [(winId : Int)]] }) := by
  simp [isMaximized, h]

theorem displaySystemMenu_items (os : OS) (winId : WId) (pos : Int × Int) (s : Proc)
    (h : winId ≠ 0) (hmenu : os.GetSystemMenu winId ≠ 0)
    (hok : ∀ item fState, os.SetMenuItemInfoW (os.GetSystemMenu winId) item fState ≠ 0) :
    menuItemStates (newEvents s ((displaySystemMenu os winId pos).run s).2) =
      [(SC_RESTORE, (menuState (((isMaximized os winId).run s).1
          || ((isFullScreened os winId).run s).1) )),
       (SC_MOVE, (menuState (!(((isMaximized os winId).run s).1
          || ((isFullScreened os winId).run s).1)) )),
       (SC_SIZE, (menuState (!(((isMaximized os winId).run s).1
          || ((isFullScreened os winId).run s).1)) )),
       (SC_MINIMIZE, MF_ENABLED),
       (SC_MAXIMIZE, (menuState (!(((isMaximized os winId).run s).1
          || ((isFullScreened os winId).run s).1)) )),
       (SC_CLOSE, MF_ENABLED)] := by
  have hP : ∀ api args, api = Api.GetWindowRect ∨ api = Api.MonitorFromWindow
      ∨ api = Api.GetMonitorInfoW →
      (fun e => ∀ a, e ≠ Event.call Api.SetMenuItemInfoW a) (Event.call api args) := by
    rintro api args (h | h | h) a <;> simp [h]
  have hT : ∀ api args, api = Api.GetCursorPos ∨ api = Api.TrackPopupMenu
      ∨ api = Api.PostMessageW →
      (fun e => ∀ a, e ≠ Event.call Api.SetMenuItemInfoW a) (Event.call api args) := by
    rintro api args (h | h | h) a <;> simp [h]
  -- whatever follows the six updates adds no menu update
  have tail : ∀ t : Proc, s.log.length ≤ t.log.length →
      menuItemStates (newEvents s ((if os.SetMenuDefaultItem (os.GetSystemMenu winId) = 0
        then ((false, t) : Bool × Proc)
        else (trackSystemMenu os winId (os.GetSystemMenu winId) pos).run t)).2)
      = menuItemStates (newEvents s t) := by
    intro t ht
    split
    · rfl
    · obtain ⟨l, hl, pl⟩ := @emits_trackSystemMenu
        (fun e => ∀ a, e ≠ Event.call Api.SetMenuItemInfoW a) os winId (os.GetSystemMenu winId)
        pos hT t
      simp only [newEvents, hl, List.drop_append_of_le_length ht, menuItemStates_append,
        menuItemStates_none l pl, List.append_nil]
  obtain ⟨s2, hs2⟩ : ∃ s2 : Proc, s2 = { s with log := s.log
      ++ [Event.call Api.GetSystemMenu [(winId : Int), 0]]
      ++ [Event.call Api.IsMaximized [(winId : Int)]] } := ⟨_, rfl⟩
  obtain ⟨lF, hlF, pF⟩ := @emits_isFullScreened
    (fun e => ∀ a, e ≠ Event.call Api.SetMenuItemInfoW a) os winId hP s2
  have hv : ((isFullScreened os winId).run s2).1 = ((isFullScreened os winId).run s).1 :=
    (steady_isFullScreened os winId).2 s2 s (by rw [hs2]; rfl)
  simp only [displaySystemMenu, h, hmenu, if_false, run_bind, run_sys, run_ite, run_pure,
    run_setState, hok, ne_eq, not_false_eq_true, decide_True, Bool.not_true, Bool.false_eq_true,
    run_isMaximized]
  cases hmax : (os.IsMaximized winId != 0)
  · simp only [if_false, Bool.false_or, Bool.false_eq_true]
    rw [← hs2, ← hv]
    generalize (isFullScreened os winId).run s2 = r at hlF ⊢
    rw [tail _ (by simp [hlF, hs2])]
    simp only [newEvents, hlF, hs2, List.append_assoc, List.drop_left, menuItemStates_append,
      menuItemStates_none lF pF]
    rfl
  · simp only [if_true, Bool.true_or, Bool.not_true]
    rw [tail _ (by simp)]
    simp only [newEvents, List.append_assoc, List.drop_left]
    rfl

/-! ## The metric queries talk to the system only -/

theorem system_resolveDwmIsCompositionEnabled (os : OS) :
    Emits (fun e => e.isSystem = true) (resolveDwmIsCompositionEnabled os) :=
  fun _ => ⟨_, rfl, emits_lazyBind os _ _ _ rfl rfl⟩

theorem isWin10RS1_of_19H1 (os : OS) (h : __IsWin1019H1OrGreater os = true) :
    __IsWin10RS1OrGreater os = true := by
  unfold __IsWin1019H1OrGreater QOperatingSystemVersion.compare at h
  unfold __IsWin10RS1OrGreater QOperatingSystemVersion.compare
  simp only [decide_eq_true_eq] at h ⊢
  split at h <;> split <;> omega

theorem run___ShouldAppsUseDarkMode_19H1 (os : OS) (h : __IsWin1019H1OrGreater os = true)
    (s : Proc) :
    ((__ShouldAppsUseDarkMode os).run s).1 =
      ((registryToUInt (os.registry RegKey.Personalize RegName.AppsUseLightTheme)).2
        && (registryToUInt (os.registry RegKey.Personalize RegName.AppsUseLightTheme)).1 == 0) := by
  simp [__ShouldAppsUseDarkMode, resultFromRegistry, h, isWin10RS1_of_19H1 os h]

theorem settle___IsHighContrastModeEnabled (os : OS) (s : Proc) :
    settle os ((__IsHighContrastModeEnabled os).run s).2 = settle os s := by
  unfold __IsHighContrastModeEnabled
  simp only [run_bind, run_sys]
  split <;> rfl

/-- The manual-correction path of `__GetSystemMetricsForDpi` (lines 123-150), with the
awareness and the current DPI taken from the starting state. -/
theorem manualCorrection_run (os : OS) (nIndex : Int) (dpi v : Nat) (s : Proc) (hdpi : dpi ≠ 0)
    (hfunc : ((resolveGetSystemMetricsForDpi os).run s).1 = false)
    (hv : os.GetSystemMetrics nIndex = (v : Int)) (hpos : 0 < v) :
    ((__GetSystemMetricsForDpi os nIndex dpi).run s).1 =
      if ((getDPIAwarenessForWindow os 0).run s).1 = DPIAwareness.Invalid then 0
      else if ((getDPIAwarenessForWindow os 0).run s).1 = DPIAwareness.Unaware then
        toU32 (qRound ((QReal.ofInt v).mul
          ((QReal.ofInt dpi).div (QReal.ofInt USER_DEFAULT_SCREEN_DPI))))
      else if ((getDPIForWindow os 0).run s).1 = 0 then 0
      else if ((QReal.ofInt ((getDPIForWindow os 0).run s).1).div
          (QReal.ofInt USER_DEFAULT_SCREEN_DPI)).eq
          ((QReal.ofInt dpi).div (QReal.ofInt USER_DEFAULT_SCREEN_DPI)) = true then
        toU32 (qRound (QReal.ofInt v))
      else toU32 (qRound (((QReal.ofInt v).div
          ((QReal.ofInt ((getDPIForWindow os 0).run s).1).div
            (QReal.ofInt USER_DEFAULT_SCREEN_DPI))).mul
          ((QReal.ofInt dpi).div (QReal.ofInt USER_DEFAULT_SCREEN_DPI)))) := by
  have hA := steady_getDPIAwarenessForWindow os 0
  have h2 : settle os ((sys Api.GetSystemMetrics [nIndex]).run
      ((resolveGetSystemMetricsForDpi os).run s).2).2 = settle os s :=
    ((steady_sys os Api.GetSystemMetrics [nIndex]).1 _).trans
      ((steady_resolveGetSystemMetricsForDpi os).1 s)
  have ea := hA.2 _ s h2
  have ec := (steady_getDPIForWindow os 0).2 _ s ((hA.1 _).trans h2)
  have hle : (QReal.ofInt (v : Int)).le (QReal.ofInt 0) = false := by
    simp only [QReal.le, QReal.ofInt, decide_eq_false_iff_not]
    push_cast
    omega
  simp only [__GetSystemMetricsForDpi, hdpi, if_false, run_bind, run_ite, run_pure, hfunc,
    Bool.false_eq_true, hv, hle, ea, ec]
  repeat' split
  all_goals rfl

/-! ## Claims -/

/-- C1. For a non-null window and either value of `dpiScale`, the `TitleBarHeight` metric is
the `CaptionHeight` metric when the window is maximized or full-screen, and otherwise the sum
of the `CaptionHeight` and `ResizeBorderThickness` metrics, all queried from the same state of
the process.  The sum is the `quint32` sum the code computes; when it does not exceed the
`quint32` range it is the plain sum. -/
theorem getSystemMetric_titleBarHeight (os : OS) (k : Constants) (winId : WId) (dpiScale : Bool)
    (s : Proc) (h : winId ≠ 0) :
    (((getSystemMetric os k winId SystemMetric.TitleBarHeight dpiScale).run s).1 =
      if ((isMaximized os winId).run s).1 = true ∨ ((isFullScreened os winId).run s).1 = true then
        ((getSystemMetric os k winId SystemMetric.CaptionHeight dpiScale).run s).1
      else (((getSystemMetric os k winId SystemMetric.CaptionHeight dpiScale).run s).1
        + ((getSystemMetric os k winId SystemMetric.ResizeBorderThickness dpiScale).run s).1)
          % 4294967296) ∧
    (((getSystemMetric os k winId SystemMetric.CaptionHeight dpiScale).run s).1
        + ((getSystemMetric os k winId SystemMetric.ResizeBorderThickness dpiScale).run s).1
          < 4294967296 →
      ((getSystemMetric os k winId SystemMetric.TitleBarHeight dpiScale).run s).1 =
        if ((isMaximized os winId).run s).1 = true ∨ ((isFullScreened os winId).run s).1 = true
        then ((getSystemMetric os k winId SystemMetric.CaptionHeight dpiScale).run s).1
        else ((getSystemMetric os k winId SystemMetric.CaptionHeight dpiScale).run s).1
          + ((getSystemMetric os k winId SystemMetric.ResizeBorderThickness dpiScale).run s).1) := by
  have main : ((getSystemMetric os k winId SystemMetric.TitleBarHeight dpiScale).run s).1 =
      if ((isMaximized os winId).run s).1 = true ∨ ((isFullScreened os winId).run s).1 = true then
        ((getSystemMetric os k winId SystemMetric.CaptionHeight dpiScale).run s).1
      else (((getSystemMetric os k winId SystemMetric.CaptionHeight dpiScale).run s).1
        + ((getSystemMetric os k winId SystemMetric.ResizeBorderThickness dpiScale).run s).1)
          % 4294967296 := by
    obtain ⟨s0, s1, s2, s3, h0, h1, h2, h3, e⟩ := titleBarHeight_run os k winId dpiScale s h
    rw [e, (steady_getSystemMetric os k winId SystemMetric.CaptionHeight dpiScale).2 s0 s h0,
      (steady_getSystemMetric os k winId SystemMetric.ResizeBorderThickness dpiScale).2 s1 s h1,
      (steady_isMaximized os winId).2 s2 s h2, (steady_isFullScreened os winId).2 s3 s h3]
    cases ((isMaximized os winId).run s).1 <;> cases ((isFullScreened os winId).run s).1 <;> simp
  refine ⟨main, fun hlt => ?_⟩
  rw [main, Nat.mod_eq_of_lt hlt]

/-- C1, at instances: a normal window on Windows 10 (23 + 8 = 31) and a maximized one (23). -/
theorem getSystemMetric_titleBarHeight_witness :
    ((1 : WId) ≠ 0 ∧
      ((getSystemMetric win10 sampleConstants 1 SystemMetric.TitleBarHeight true).run
        Proc.start).1 = 31) ∧
    ((getSystemMetric win10Maximized sampleConstants 1 SystemMetric.TitleBarHeight true).run
        Proc.start).1 = 23 :=
  ⟨⟨by decide,
    ((getSystemMetric_titleBarHeight win10 sampleConstants 1 true Proc.start (by decide)).1).trans
      (by decide)⟩,
   ((getSystemMetric_titleBarHeight win10Maximized sampleConstants 1 true Proc.start
      (by decide)).1).trans (by decide)⟩

/-- C2. Below the Windows 10 tier `getColorizationArea` returns `None` whatever the registry
holds.  From Windows 10 on, with `theme` and `dwm` the `ColorPrevalence` values read from the
personalization key and the DWM key, it returns `None` when both are 0,
`StartMenu_TaskBar_ActionCenter` when only `theme` is non-zero, `TitleBar_WindowBorder` when
only `dwm` is non-zero, and `All` when both are non-zero. -/
theorem getColorizationArea_table (os : OS) (s : Proc) :
    (os.isWin10OrGreater = false →
      ((getColorizationArea os).run s).1 = ColorizationArea.None) ∧
    (os.isWin10OrGreater = true →
      ∀ theme dwm : Nat,
        (registryToUInt (os.registry RegKey.Personalize RegName.ColorPrevalence)).1 = theme →
        (registryToUInt (os.registry RegKey.Dwm RegName.ColorPrevalence)).1 = dwm →
        (theme = 0 → dwm = 0 → ((getColorizationArea os).run s).1 = ColorizationArea.None) ∧
        (theme ≠ 0 → dwm = 0 →
          ((getColorizationArea os).run s).1 = ColorizationArea.StartMenu_TaskBar_ActionCenter) ∧
        (theme = 0 → dwm ≠ 0 →
          ((getColorizationArea os).run s).1 = ColorizationArea.TitleBar_WindowBorder) ∧
        (theme ≠ 0 → dwm ≠ 0 → ((getColorizationArea os).run s).1 = ColorizationArea.All)) := by
  refine ⟨fun h => by simp [getColorizationArea, h], fun h theme dwm ht hd => ?_⟩
  subst ht hd
  refine ⟨fun a b => ?_, fun a b => ?_, fun a b => ?_, fun a b => ?_⟩ <;>
    simp [getColorizationArea, h, a, b]

/-- C2, at instances: Windows 7 gives `None`; Windows 10 with only the DWM flag set gives
`TitleBar_WindowBorder`. -/
theorem getColorizationArea_table_witness :
    (win7.isWin10OrGreater = false ∧
      ((getColorizationArea win7).run Proc.start).1 = ColorizationArea.None) ∧
    (win10.isWin10OrGreater = true ∧
      ((getColorizationArea win10).run Proc.start).1 = ColorizationArea.TitleBar_WindowBorder) :=
  ⟨⟨rfl, (getColorizationArea_table win7 Proc.start).1 rfl⟩,
   ⟨rfl, ((getColorizationArea_table win10 Proc.start).2 rfl 0 1 rfl rfl).2.2.1 rfl (by decide)⟩⟩

/-- C3. From the Windows 8 tier on, `isCompositionEnabled` returns `true` and leaves the whole
process state as it was: the statics are untouched and nothing is added to the log, so no
library is loaded, no symbol is looked up, `DwmIsCompositionEnabled` is not called and the
`Composition` registry value is not read. -/
theorem isCompositionEnabled_win8 (os : OS) (s : Proc) (h : os.isWin8OrGreater = true) :
    (isCompositionEnabled os).run s = (true, s) := by
  simp [isCompositionEnabled, h]

/-- C3, at an instance: Windows 10 from the start state. -/
theorem isCompositionEnabled_win8_witness :
    win10.isWin8OrGreater = true ∧
      (isCompositionEnabled win10).run Proc.start = (true, Proc.start) :=
  ⟨rfl, isCompositionEnabled_win8 win10 Proc.start rfl⟩

/-- C4. For every window handle and reset flag, when `isCompositionEnabled` answers `false`,
`updateFrameMargins` returns `false`, does nothing beyond that composition query, leaves its
own statics (the `tried` flag and the pointer for `DwmExtendFrameIntoClientArea`) as they were,
and adds to the log neither a lookup nor a call of `DwmExtendFrameIntoClientArea`. -/
theorem updateFrameMargins_without_composition (os : OS) (k : Constants) (winId : WId)
    (reset : Bool) (s : Proc) (h : ((isCompositionEnabled os).run s).1 = false) :
    ((updateFrameMargins os k winId reset).run s).1 = false ∧
    ((updateFrameMargins os k winId reset).run s).2 = ((isCompositionEnabled os).run s).2 ∧
    ((updateFrameMargins os k winId reset).run s).2.sUpdateFrameMargins = s.sUpdateFrameMargins ∧
    ∀ e ∈ newEvents s ((updateFrameMargins os k winId reset).run s).2,
      e ≠ Event.GetProcAddress Dll.DwmApi Api.DwmExtendFrameIntoClientArea ∧
      ∀ args, e ≠ Event.call Api.DwmExtendFrameIntoClientArea args := by
  have e : (updateFrameMargins os k winId reset).run s
      = (false, ((isCompositionEnabled os).run s).2) := by
    simp [updateFrameMargins, h]
  rw [e]
  refine ⟨rfl, rfl, isCompositionEnabled_frame os s, ?_⟩
  obtain ⟨l, hl, hmem⟩ := @emits_isCompositionEnabled
    (fun e => e ≠ Event.GetProcAddress Dll.DwmApi Api.DwmExtendFrameIntoClientArea ∧
      ∀ args, e ≠ Event.call Api.DwmExtendFrameIntoClientArea args) os
    (by simp) (by simp) (by simp) (by simp) s
  rw [newEvents_append s l _ hl]
  exact hmem

/-- C4, at an instance: Windows 7 with the classic theme, a non-null window. -/
theorem updateFrameMargins_without_composition_witness :
    ((isCompositionEnabled win7Classic).run Proc.start).1 = false ∧
    ((updateFrameMargins win7Classic sampleConstants 1 false).run Proc.start).1 = false ∧
    ((updateFrameMargins win7Classic sampleConstants 1 false).run Proc.start).2.sUpdateFrameMargins
      = Proc.start.sUpdateFrameMargins :=
  have h := updateFrameMargins_without_composition win7Classic sampleConstants 1 false Proc.start
    (by decide)
  ⟨by decide, h.1, h.2.2.1⟩

/-- C5. For a non-null window on a system below the Windows 10 tier, the
`FrameBorderThickness` metric without DPI scaling is exactly 1. -/
theorem frameBorderThickness_pre10_unscaled (os : OS) (k : Constants) (winId : WId) (s : Proc)
    (h : winId ≠ 0) (h10 : os.isWin10OrGreater = false) :
    ((getSystemMetric os k winId SystemMetric.FrameBorderThickness false).run s).1 = 1 := by
  rw [getSystemMetric_unfold]
  simp [getSystemMetricBody, getWindowVisibleFrameBorderThickness, h, h10]

/-- C5, at an instance: Windows 7. -/
theorem frameBorderThickness_pre10_unscaled_witness :
    (1 : WId) ≠ 0 ∧ win7.isWin10OrGreater = false ∧
    ((getSystemMetric win7 sampleConstants 1 SystemMetric.FrameBorderThickness false).run
      Proc.start).1 = 1 :=
  ⟨by decide, rfl,
    frameBorderThickness_pre10_unscaled win7 sampleConstants 1 Proc.start (by decide) rfl⟩

/-- C6 as stated fails: on Windows 7 at 192 DPI (below the Windows 10 tier, non-null window)
the `FrameBorderThickness` metric with `dpiScale = true` is 2, not 1. -/
theorem frameBorderThickness_pre10_scaled_counterexample :
    (1 : WId) ≠ 0 ∧ win7At192.isWin10OrGreater = false ∧
    ((getDPIForWindow win7At192 1).run Proc.start).1 = 192 ∧
    ((getSystemMetric win7At192 sampleConstants 1 SystemMetric.FrameBorderThickness true).run
      Proc.start).1 = 2 ∧
    ((getSystemMetric win7At192 sampleConstants 1 SystemMetric.FrameBorderThickness true).run
      Proc.start).1 ≠ 1 := by
  decide

/-- C6, amended. For a non-null window on a system below the Windows 10 tier, the
`FrameBorderThickness` metric is 1 when `dpiScale` is false; when `dpiScale` is true it is the
1-pixel border scaled by the window's effective DPI, that is `dpi / 96` rounded to nearest
(halves up), `(dpi + 48) / 96` in integer arithmetic. -/
theorem frameBorderThickness_pre10 (os : OS) (k : Constants) (winId : WId) (dpiScale : Bool)
    (s : Proc) (h : winId ≠ 0) (h10 : os.isWin10OrGreater = false) :
    ((getSystemMetric os k winId SystemMetric.FrameBorderThickness dpiScale).run s).1 =
      if dpiScale then (((getDPIForWindow os winId).run s).1 + 48) / 96 else 1 := by
  rw [getSystemMetric_unfold]
  cases dpiScale
  · simp [getSystemMetricBody, getWindowVisibleFrameBorderThickness, h, h10]
  · have hlt := getDPIForWindow_lt os winId s
    have hq := qRound_unit_scaled ((getDPIForWindow os winId).run s).1 hlt
    simp only [getSystemMetricBody, getWindowVisibleFrameBorderThickness, h, h10, if_false,
      if_true, run_bind, run_ite, run_pure, Bool.not_false, Nat.cast_one, hq]
    rw [toU32_of_lt _ (by omega)]

/-- C6 amended, at an instance: Windows 7 at 192 DPI gives `(192 + 48) / 96 = 2`. -/
theorem frameBorderThickness_pre10_witness :
    (1 : WId) ≠ 0 ∧ win7At192.isWin10OrGreater = false ∧
    ((getSystemMetric win7At192 sampleConstants 1 SystemMetric.FrameBorderThickness true).run
      Proc.start).1 = (192 + 48) / 96 :=
  ⟨by decide, rfl,
    frameBorderThickness_pre10 win7At192 sampleConstants 1 true Proc.start (by decide) rfl⟩

/-- C7. `getSystemTheme` returns `HighContrast` whenever `__IsHighContrastModeEnabled` reports
the flag set, whatever the dark-mode determination is; otherwise `Dark` when
`__ShouldAppsUseDarkMode` is true and `Light` when it is false.  The flag is reported set
exactly when `SystemParametersInfoW` succeeds and `dwFlags` has `HCF_HIGHCONTRASTON`. -/
theorem getSystemTheme_precedence (os : OS) (s : Proc) :
    (((getSystemTheme os).run s).1 =
      if ((__IsHighContrastModeEnabled os).run s).1 = true then SystemTheme.HighContrast
      else if ((__ShouldAppsUseDarkMode os).run s).1 = true then SystemTheme.Dark
      else SystemTheme.Light) ∧
    ((__IsHighContrastModeEnabled os).run s).1 =
      (match os.SystemParametersInfoW with
        | none => false
        | some dwFlags => (dwFlags &&& HCF_HIGHCONTRASTON) != 0) := by
  constructor
  · have hs : settle os ((__IsHighContrastModeEnabled os).run s).2 = settle os s := by
      unfold __IsHighContrastModeEnabled
      simp only [run_bind, run_sys]
      split <;> rfl
    rw [← (steady___ShouldAppsUseDarkMode os).2 _ s hs]
    simp only [getSystemTheme, run_bind, run_ite, run_pure]
    split
    · rfl
    · split <;> rfl
  · unfold __IsHighContrastModeEnabled
    simp only [run_bind, run_sys]
    split <;> simp_all

/-- C8. From the 19H1 tier on, however often `__ShouldAppsUseDarkMode` is called and from
whatever state of the process, every call returns the value decided by the
`AppsUseLightTheme` registry value alone (true exactly when the value converts to 0), the
statics of the function stay as they were, and each call adds to the log just the one registry
read: `UxTheme.dll` is not loaded, ordinal 132 is neither looked up nor called. -/
theorem shouldAppsUseDarkMode_19H1 (os : OS) (h : __IsWin1019H1OrGreater os = true) (n : Nat)
    (s : Proc) :
    (repeatCalls (__ShouldAppsUseDarkMode os) n).run s =
      (List.replicate n
          ((registryToUInt (os.registry RegKey.Personalize RegName.AppsUseLightTheme)).2
            && (registryToUInt (os.registry RegKey.Personalize RegName.AppsUseLightTheme)).1 == 0),
        { s with
          log := s.log ++ List.replicate n
            (Event.registryValue RegKey.Personalize RegName.AppsUseLightTheme) }) := by
  have hrs1 : __IsWin10RS1OrGreater os = true := by
    unfold __IsWin1019H1OrGreater QOperatingSystemVersion.compare at h
    unfold __IsWin10RS1OrGreater QOperatingSystemVersion.compare
    simp only [decide_eq_true_eq] at h ⊢
    split at h <;> split <;> omega
  have one : ∀ t : Proc, (__ShouldAppsUseDarkMode os).run t =
      ((registryToUInt (os.registry RegKey.Personalize RegName.AppsUseLightTheme)).2
        && (registryToUInt (os.registry RegKey.Personalize RegName.AppsUseLightTheme)).1 == 0,
       { t with log := t.log ++ [Event.registryValue RegKey.Personalize RegName.AppsUseLightTheme] }) := by
    intro t
    simp [__ShouldAppsUseDarkMode, resultFromRegistry, h, hrs1]
  induction n generalizing s with
  | zero => simp [repeatCalls]
  | succ n ih =>
    simp only [repeatCalls, run_bind, run_pure, one, ih, List.replicate_succ]
    simp [List.append_assoc]

/-- C8, at an instance: three calls in a row on Windows 10 22H2 from the start state. -/
theorem shouldAppsUseDarkMode_19H1_witness :
    __IsWin1019H1OrGreater win10 = true ∧
    (repeatCalls (__ShouldAppsUseDarkMode win10) 3).run Proc.start =
      ([true, true, true],
        { Proc.start with
          log := [Event.registryValue RegKey.Personalize RegName.AppsUseLightTheme,
                  Event.registryValue RegKey.Personalize RegName.AppsUseLightTheme,
                  Event.registryValue RegKey.Personalize RegName.AppsUseLightTheme] }) :=
  ⟨by decide, (shouldAppsUseDarkMode_19H1 win10 (by decide) 3 Proc.start).trans (by decide)⟩

/-- C9 as stated fails: on a system where `DwmApi.dll` cannot be loaded the entry point is not
bound, the registry holds a readable non-zero `ColorizationColor`, and yet the result is
`Qt::darkGray`, not the colour of the registry value; the registry is not even read. -/
theorem getColorizationColor_unbound_counterexample :
    ((resolveDwmGetColorizationColor win7NoDwmApi).run Proc.start).1 = false ∧
    registryToUInt (win7NoDwmApi.registry RegKey.Dwm RegName.ColorizationColor)
      = (1802811644, true) ∧
    ((getColorizationColor win7NoDwmApi).run Proc.start).1 = Qt.darkGray ∧
    ((getColorizationColor win7NoDwmApi).run Proc.start).1 ≠ QColor.fromRgba 1802811644 ∧
    ((getColorizationColor win7NoDwmApi).run Proc.start).2.log
      = [Event.LoadLibraryExW Dll.DwmApi] := by
  decide

/-- C9, amended. With `bound` the pointer after the binding block and `(value, ok)` the
conversion of the DWM registry value `ColorizationColor`: when the entry point is not bound the
result is `Qt::darkGray` and nothing happens beyond the binding block (the registry is not
read); when it is bound and the call returns a failure code, the result is the colour of the
registry value if that is readable and non-zero, and otherwise a gray whose red, green and blue
are 128. -/
theorem getColorizationColor_fallback (os : OS) (s : Proc) :
    (((resolveDwmGetColorizationColor os).run s).1 = false →
      (getColorizationColor os).run s
        = (Qt.darkGray, ((resolveDwmGetColorizationColor os).run s).2)) ∧
    (((resolveDwmGetColorizationColor os).run s).1 = true →
      FAILED os.DwmGetColorizationColor.1 = true →
      ((registryToUInt (os.registry RegKey.Dwm RegName.ColorizationColor)).2 = true →
        (registryToUInt (os.registry RegKey.Dwm RegName.ColorizationColor)).1 ≠ 0 →
        ((getColorizationColor os).run s).1
          = QColor.fromRgba (registryToUInt (os.registry RegKey.Dwm RegName.ColorizationColor)).1) ∧
      ((registryToUInt (os.registry RegKey.Dwm RegName.ColorizationColor)).2 = false
        ∨ (registryToUInt (os.registry RegKey.Dwm RegName.ColorizationColor)).1 = 0 →
        ((getColorizationColor os).run s).1.red = 128 ∧
        ((getColorizationColor os).run s).1.green = 128 ∧
        ((getColorizationColor os).run s).1.blue = 128)) := by
  refine ⟨fun hb => ?_, fun hb hf => ⟨fun hok hnz => ?_, fun hbad => ?_⟩⟩
  · simp only [getColorizationColor, run_bind, hb]
    rfl
  · simp only [getColorizationColor, run_bind, hb, if_true, run_sys, hf, run_readRegistry,
      run_ite, run_pure, hok]
    simp [hnz]
  · have hg : QColor.fromRgba (RGB 128 128 128) = ⟨128, 128, 128, 0⟩ := by decide
    simp only [getColorizationColor, run_bind, hb, if_true, run_sys, hf, run_readRegistry,
      run_ite, run_pure]
    rcases hbad with h | h <;> simp [h, hg]

/-- C9 amended, at instances: the unbound entry point, and a failing call with a readable
registry value. -/
theorem getColorizationColor_fallback_witness :
    (((resolveDwmGetColorizationColor win7NoDwmApi).run Proc.start).1 = false ∧
      ((getColorizationColor win7NoDwmApi).run Proc.start).1 = Qt.darkGray) ∧
    (((resolveDwmGetColorizationColor win7ColorFails).run Proc.start).1 = true ∧
      FAILED win7ColorFails.DwmGetColorizationColor.1 = true ∧
      ((getColorizationColor win7ColorFails).run Proc.start).1 = QColor.fromRgba 1802811644) :=
  ⟨⟨by decide,
    congrArg Prod.fst ((getColorizationColor_fallback win7NoDwmApi Proc.start).1 (by decide))⟩,
   ⟨by decide, by decide,
    ((getColorizationColor_fallback win7ColorFails Proc.start).2 (by decide) (by decide)).1
      (by decide) (by decide)⟩⟩

/-- C10 as stated fails: on Windows 10 with `GetDpiForWindow` bound and returning 0 for a
non-null window, the next strategy of the chain (the per-process query) would give 144, but
`getDPIForWindow` returns 96, decided at the failed step. -/
theorem getDPIForWindow_failed_step_counterexample :
    (1 : WId) ≠ 0 ∧
    ((resolveGetDPIForWindow win10WindowDpiFails).run Proc.start).1.GetDpiForWindowFunc = true ∧
    win10WindowDpiFails.GetDpiForWindow 1 = 0 ∧
    ((dpiFromProcessOrSystem win10WindowDpiFails
        ((resolveGetDPIForWindow win10WindowDpiFails).run Proc.start).1).run
      ((resolveGetDPIForWindow win10WindowDpiFails).run Proc.start).2).1 = 144 ∧
    ((getDPIForWindow win10WindowDpiFails 1).run Proc.start).1 = 96 ∧
    ((getDPIForWindow win10WindowDpiFails 1).run Proc.start).1 ≠ 144 := by
  decide

/-- C10, amended. For a non-null window, when the per-window query is bound and fails
(returns 0), `getDPIForWindow` returns `USER_DEFAULT_SCREEN_DPI` (96) at that step: after the
binding block the only interaction is the one call of `GetDpiForWindow`, and no later strategy
of the chain is tried. -/
theorem getDPIForWindow_failed_step (os : OS) (winId : WId) (s : Proc) (h : winId ≠ 0)
    (hb : ((resolveGetDPIForWindow os).run s).1.GetDpiForWindowFunc = true)
    (hz : os.GetDpiForWindow winId = 0) :
    (getDPIForWindow os winId).run s =
      (USER_DEFAULT_SCREEN_DPI,
        { ((resolveGetDPIForWindow os).run s).2 with
          log := ((resolveGetDPIForWindow os).run s).2.log
            ++ [Event.call Api.GetDpiForWindow [(winId : Int)]] }) := by
  simp only [getDPIForWindow, run_bind, h, hb, ne_eq, not_false_eq_true, and_self, if_true,
    dpiFromWindow, run_sys, hz, Nat.zero_mod, gt_iff_lt, lt_self_iff_false, if_false, run_ite,
    run_pure]

/-- C10 amended, at an instance: Windows 10 with a failing `GetDpiForWindow`. -/
theorem getDPIForWindow_failed_step_witness :
    (1 : WId) ≠ 0 ∧
    ((resolveGetDPIForWindow win10WindowDpiFails).run Proc.start).1.GetDpiForWindowFunc = true ∧
    win10WindowDpiFails.GetDpiForWindow 1 = 0 ∧
    ((getDPIForWindow win10WindowDpiFails 1).run Proc.start).1 = USER_DEFAULT_SCREEN_DPI :=
  ⟨by decide, by decide, rfl,
    congrArg Prod.fst
      (getDPIForWindow_failed_step win10WindowDpiFails 1 Proc.start (by decide) (by decide) rfl)⟩

/-- C11. The code returns 0 where the claim promises a non-zero DPI: on Windows 8.1 with
`GetDpiForMonitor` bound and reporting success with `dpiX = dpiY = 0`, `getDPIForWindow` of a
non-null window is 0, and `getSystemMetric` then hands that 0 to `__GetSystemMetricsForDpi`,
whose first line asserts `dpi != 0`. -/
theorem getDPIForWindow_zero_from_monitor :
    (1 : WId) ≠ 0 ∧
    ((resolveGetDPIForWindow win81ZeroMonitorDpi).run Proc.start).1.GetDpiForMonitorFunc = true ∧
    SUCCEEDED (win81ZeroMonitorDpi.GetDpiForMonitor 65537).1 = true ∧
    ((getDPIForWindow win81ZeroMonitorDpi 1).run Proc.start).1 = 0 ∧
    ((getDPIForWindow win81ZeroMonitorDpi 0).run Proc.start).1 = 0 := by
  decide

/-- C13. `getDPIForWindow` is idempotent: from any state of the process and for any window
handle, a second call right after the first returns the same value, and so does every call of
a longer run of consecutive calls, although the first call may set the `tried` flag and the
cached pointers (on Windows 10 it does, as the last part shows). -/
theorem getDPIForWindow_idempotent (os : OS) (winId : WId) (s : Proc) :
    ((getDPIForWindow os winId).run ((getDPIForWindow os winId).run s).2).1
      = ((getDPIForWindow os winId).run s).1 ∧
    (∀ n : Nat, ((repeatCalls (getDPIForWindow os winId) n).run s).1
      = List.replicate n ((getDPIForWindow os winId).run s).1) ∧
    ((getDPIForWindow win10 1).run Proc.start).2.sGetDPIForWindow
      ≠ Proc.start.sGetDPIForWindow := by
  have hst := steady_getDPIForWindow os winId
  refine ⟨hst.2 _ _ (hst.1 s), fun n => ?_, by decide⟩
  have key : ∀ (n : Nat) (t : Proc), settle os t = settle os s →
      ((repeatCalls (getDPIForWindow os winId) n).run t).1
        = List.replicate n ((getDPIForWindow os winId).run s).1 := by
    intro n
    induction n with
    | zero => intro t _; rfl
    | succ n ih =>
      intro t ht
      simp only [repeatCalls, run_bind, run_pure, List.replicate_succ]
      rw [hst.2 t s ht, ih _ ((hst.1 t).trans ht)]
  exact key n s rfl

/-- C20. The code leaves the display context unreleased on its early returns: on Windows 7
with `GetDeviceCaps(hDC, LOGPIXELSX)` returning 0, and likewise with `LOGPIXELSY` returning 0,
`GetDC` gives the non-null context 1 and the run ends without any `ReleaseDC`; the log holds
just `GetDC` and the `GetDeviceCaps` calls.  The source marks both exits with the comment
"release dc". -/
theorem getDPIForWindow_leaks_dc :
    win7NoLogPixelsX.GetDC ≠ 0 ∧
    (getDPIForWindow win7NoLogPixelsX 1).run Proc.start =
      (96, { Proc.start with
        log := [Event.call Api.GetDC [0], Event.call Api.GetDeviceCaps [1, LOGPIXELSX]] }) ∧
    (getDPIForWindow win7NoLogPixelsY 1).run Proc.start =
      (96, { Proc.start with
        log := [Event.call Api.GetDC [0], Event.call Api.GetDeviceCaps [1, LOGPIXELSX],
                Event.call Api.GetDeviceCaps [1, LOGPIXELSY]] }) ∧
    Event.call Api.ReleaseDC [0, 1] ∈ ((getDPIForWindow win7 1).run Proc.start).2.log := by
  decide

/-- C17. The code does not change the style: for every system, window and state,
`setWindowResizable(window, true)` and `setWindowResizable(window, false)` do exactly the same
and write back the style word just read.  On Windows 10, for a window whose style has
`WS_THICKFRAME`, the call with `false` writes that style back with the bit still set; for a
window whose style lacks it, the call with `true` writes it back with the bit still clear. -/
theorem setWindowResizable_writes_style_unchanged :
    (∀ (os : OS) (winId : WId) (s : Proc),
      (setWindowResizable os winId true).run s = (setWindowResizable os winId false).run s) ∧
    (∀ (os : OS) (winId : WId) (s : Proc) (resizable : Bool), winId ≠ 0 →
      stylesWritten (newEvents s ((setWindowResizable os winId resizable).run s).2)
        = [(toU32 (os.GetWindowLongPtrW winId) : Int)]) ∧
    (stylesWritten ((setWindowResizable win10 1 false).run Proc.start).2.log = [349110272] ∧
      349110272 &&& WS_THICKFRAME ≠ 0) ∧
    (stylesWritten ((setWindowResizable win10FixedSize 1 true).run Proc.start).2.log
        = [348782592] ∧
      348782592 &&& WS_THICKFRAME = 0) := by
  refine ⟨fun os winId s => ?_, fun os winId s resizable h => ?_, by decide, by decide⟩
  · simp [setWindowResizable]
  · have e : ((setWindowResizable os winId resizable).run s).2.log = s.log ++
        [Event.call Api.GetWindowLongPtrW [(winId : Int), GWL_STYLE],
         Event.call Api.SetWindowLongPtrW
          [(winId : Int), GWL_STYLE, (toU32 (os.GetWindowLongPtrW winId) : Int)]] := by
      simp only [setWindowResizable, h, if_false, run_bind, run_sys, run_ite, run_pure, ite_self]
      split <;> simp
    rw [newEvents_append s _ _ e]
    rfl

/-- C15 as stated fails: on Windows 10 with a maximized window (every menu update succeeds)
the Restore item is set enabled while the Maximize item is set disabled; with a normal window
Restore is set disabled while Maximize is set enabled.  The two items are never set alike. -/
theorem displaySystemMenu_restore_counterexample :
    ((isMaximized win10Maximized 1).run Proc.start).1 = true ∧
    menuItemStates ((displaySystemMenu win10Maximized 1 (0, 0)).run Proc.start).2.log =
      [(SC_RESTORE, MF_ENABLED), (SC_MOVE, MF_DISABLED), (SC_SIZE, MF_DISABLED),
       (SC_MINIMIZE, MF_ENABLED), (SC_MAXIMIZE, MF_DISABLED), (SC_CLOSE, MF_ENABLED)] ∧
    ((isMaximized win10 1).run Proc.start).1 = false ∧
    ((isFullScreened win10 1).run Proc.start).1 = false ∧
    menuItemStates ((displaySystemMenu win10 1 (0, 0)).run Proc.start).2.log =
      [(SC_RESTORE, MF_DISABLED), (SC_MOVE, MF_ENABLED), (SC_SIZE, MF_ENABLED),
       (SC_MINIMIZE, MF_ENABLED), (SC_MAXIMIZE, MF_ENABLED), (SC_CLOSE, MF_ENABLED)] := by
  decide

/-- C15, amended. For a non-null window whose system menu is obtained and whose menu updates
all succeed, `displaySystemMenu` sets the Restore item and the Maximize item once each:
Restore enabled exactly when the window is maximized or full-screen, Maximize enabled exactly
when it is neither. -/
theorem displaySystemMenu_restore_maximize (os : OS) (winId : WId) (pos : Int × Int)
    (s : Proc) (h : winId ≠ 0) (hmenu : os.GetSystemMenu winId ≠ 0)
    (hok : ∀ item fState, os.SetMenuItemInfoW (os.GetSystemMenu winId) item fState ≠ 0) :
    (menuItemStates (newEvents s ((displaySystemMenu os winId pos).run s).2)).filter
        (fun p => p.1 == SC_RESTORE || p.1 == SC_MAXIMIZE) =
      [(SC_RESTORE, (menuState (((isMaximized os winId).run s).1
          || ((isFullScreened os winId).run s).1) )),
       (SC_MAXIMIZE, (menuState (!(((isMaximized os winId).run s).1
          || ((isFullScreened os winId).run s).1)) ))] := by
  rw [displaySystemMenu_items os winId pos s h hmenu hok]
  generalize (((isMaximized os winId).run s).1 || ((isFullScreened os winId).run s).1) = b
  cases b <;> rfl

/-- C15 amended, at an instance: a maximized window on Windows 10. -/
theorem displaySystemMenu_restore_maximize_witness :
    (1 : WId) ≠ 0 ∧ win10Maximized.GetSystemMenu 1 ≠ 0 ∧
    (menuItemStates (newEvents Proc.start
        ((displaySystemMenu win10Maximized 1 (0, 0)).run Proc.start).2)).filter
        (fun p => p.1 == SC_RESTORE || p.1 == SC_MAXIMIZE) =
      [(SC_RESTORE, MF_ENABLED), (SC_MAXIMIZE, MF_DISABLED)] :=
  ⟨by decide, by decide,
    (displaySystemMenu_restore_maximize win10Maximized 1 (0, 0) Proc.start (by decide)
      (by decide) (fun _ _ => (by decide : (1 : Int) ≠ 0))).trans (by decide)⟩

/-- C16. For a non-null window whose system menu is obtained and whose menu updates all
succeed, `displaySystemMenu` sets the Move and Size items enabled exactly when the window is
neither maximized nor full-screen, and sets the Minimize and Close items enabled in every
window state; each of the four is set once. -/
theorem displaySystemMenu_move_size_minimize_close (os : OS) (winId : WId) (pos : Int × Int)
    (s : Proc) (h : winId ≠ 0) (hmenu : os.GetSystemMenu winId ≠ 0)
    (hok : ∀ item fState, os.SetMenuItemInfoW (os.GetSystemMenu winId) item fState ≠ 0) :
    (menuItemStates (newEvents s ((displaySystemMenu os winId pos).run s).2)).filter
        (fun p => p.1 == SC_MOVE || p.1 == SC_SIZE || p.1 == SC_MINIMIZE || p.1 == SC_CLOSE) =
      [(SC_MOVE, (menuState (!(((isMaximized os winId).run s).1
          || ((isFullScreened os winId).run s).1)) )),
       (SC_SIZE, (menuState (!(((isMaximized os winId).run s).1
          || ((isFullScreened os winId).run s).1)) )),
       (SC_MINIMIZE, MF_ENABLED),
       (SC_CLOSE, MF_ENABLED)] := by
  rw [displaySystemMenu_items os winId pos s h hmenu hok]
  generalize (((isMaximized os winId).run s).1 || ((isFullScreened os winId).run s).1) = b
  cases b <;> rfl

/-- C16, at instances: a normal and a maximized window on Windows 10. -/
theorem displaySystemMenu_move_size_minimize_close_witness :
    ((1 : WId) ≠ 0 ∧ win10.GetSystemMenu 1 ≠ 0 ∧
      (menuItemStates (newEvents Proc.start
          ((displaySystemMenu win10 1 (0, 0)).run Proc.start).2)).filter
          (fun p => p.1 == SC_MOVE || p.1 == SC_SIZE || p.1 == SC_MINIMIZE || p.1 == SC_CLOSE) =
        [(SC_MOVE, MF_ENABLED), (SC_SIZE, MF_ENABLED), (SC_MINIMIZE, MF_ENABLED),
         (SC_CLOSE, MF_ENABLED)]) ∧
    (menuItemStates (newEvents Proc.start
        ((displaySystemMenu win10Maximized 1 (0, 0)).run Proc.start).2)).filter
        (fun p => p.1 == SC_MOVE || p.1 == SC_SIZE || p.1 == SC_MINIMIZE || p.1 == SC_CLOSE) =
      [(SC_MOVE, MF_DISABLED), (SC_SIZE, MF_DISABLED), (SC_MINIMIZE, MF_ENABLED),
       (SC_CLOSE, MF_ENABLED)] :=
  ⟨⟨by decide, by decide,
    (displaySystemMenu_move_size_minimize_close win10 1 (0, 0) Proc.start (by decide)
      (by decide) (fun _ _ => (by decide : (1 : Int) ≠ 0))).trans (by decide)⟩,
   (displaySystemMenu_move_size_minimize_close win10Maximized 1 (0, 0) Proc.start (by decide)
      (by decide) (fun _ _ => (by decide : (1 : Int) ≠ 0))).trans (by decide)⟩

/-- C21 as stated fails: on Windows 7 at 192 DPI with both metric queries yielding 0 and
composition on, the window's effective DPI (the requested DPI) and the current effective DPI
of the process are both 192, so the ratio of the two is 1 and the claim gives the Aero constant
8 unchanged; the code returns 16, the constant scaled by 192 / 96. -/
theorem resizeBorderThickness_fallback_counterexample :
    (1 : WId) ≠ 0 ∧
    ((getDPIForWindow win7At192NoMetrics 1).run Proc.start).1 = 192 ∧
    ((getDPIForWindow win7At192NoMetrics 0).run Proc.start).1 = 192 ∧
    ((__GetSystemMetricsForDpi win7At192NoMetrics SM_CXSIZEFRAME 192).run Proc.start).1 = 0 ∧
    ((__GetSystemMetricsForDpi win7At192NoMetrics SM_CXPADDEDBORDER 192).run Proc.start).1 = 0 ∧
    ((isCompositionEnabled win7At192NoMetrics).run Proc.start).1 = true ∧
    sampleConstants.kDefaultResizeBorderThicknessAero = 8 ∧
    ((getSystemMetric win7At192NoMetrics sampleConstants 1 SystemMetric.ResizeBorderThickness
      true).run Proc.start).1 = 16 := by
  decide

/-- C21, amended. For a non-null window, when both metric queries behind the resize border
yield 0, `getSystemMetric(window, ResizeBorderThickness, dpiScale)` returns the fallback
constant `c` (the Aero constant when `isCompositionEnabled`, else the Classic one): unchanged
when `dpiScale` is false, and `qRound(c * (dpi / 96.0))` when `dpiScale` is true, the constant
scaled by `dpi / 96` in `double` arithmetic, where `dpi` is the effective DPI of the window.
The scaled value is `c * dpi / 96` rounded to nearest, `(c * dpi + 48) / 96`, whenever `dpi`
is a multiple of 3 or `c * dpi / 96` is not half way between two integers (for `c < 2^17` and
`c * dpi < 2^35`).  Throughout `c * dpi < 2^37`, so that the rounded value fits in `int`. -/
theorem resizeBorderThickness_fallback (os : OS) (k : Constants) (winId : WId) (dpiScale : Bool)
    (s : Proc) (h : winId ≠ 0)
    (hsize : ((__GetSystemMetricsForDpi os SM_CXSIZEFRAME
      (if dpiScale then ((getDPIForWindow os winId).run s).1 else USER_DEFAULT_SCREEN_DPI)).run
        s).1 = 0)
    (hpad : ((__GetSystemMetricsForDpi os SM_CXPADDEDBORDER
      (if dpiScale then ((getDPIForWindow os winId).run s).1 else USER_DEFAULT_SCREEN_DPI)).run
        s).1 = 0)
    (hfit : dpiScale = true →
      (if ((isCompositionEnabled os).run s).1 then k.kDefaultResizeBorderThicknessAero
        else k.kDefaultResizeBorderThicknessClassic) % 4294967296
          * ((getDPIForWindow os winId).run s).1 < 137438953472) :
    (((getSystemMetric os k winId SystemMetric.ResizeBorderThickness dpiScale).run s).1 =
      if dpiScale then
        toU32 (qRound ((QReal.ofInt
          (((if ((isCompositionEnabled os).run s).1 then k.kDefaultResizeBorderThicknessAero
            else k.kDefaultResizeBorderThicknessClassic) % 4294967296 : Nat) : Int)).mul
          ((QReal.ofInt ((getDPIForWindow os winId).run s).1).div
            (QReal.ofInt USER_DEFAULT_SCREEN_DPI))))
      else (if ((isCompositionEnabled os).run s).1 then k.kDefaultResizeBorderThicknessAero
        else k.kDefaultResizeBorderThicknessClassic) % 4294967296) ∧
    (dpiScale = true →
      (if ((isCompositionEnabled os).run s).1 then k.kDefaultResizeBorderThicknessAero
        else k.kDefaultResizeBorderThicknessClassic) % 4294967296 < 131072 →
      (if ((isCompositionEnabled os).run s).1 then k.kDefaultResizeBorderThicknessAero
        else k.kDefaultResizeBorderThicknessClassic) % 4294967296
          * ((getDPIForWindow os winId).run s).1 < 34359738368 →
      (3 ∣ ((getDPIForWindow os winId).run s).1 ∨
        ((if ((isCompositionEnabled os).run s).1 then k.kDefaultResizeBorderThicknessAero
          else k.kDefaultResizeBorderThicknessClassic) % 4294967296
            * ((getDPIForWindow os winId).run s).1 + 48) % 96 ≠ 0) →
      ((getSystemMetric os k winId SystemMetric.ResizeBorderThickness dpiScale).run s).1 =
        ((if ((isCompositionEnabled os).run s).1 then k.kDefaultResizeBorderThicknessAero
          else k.kDefaultResizeBorderThicknessClassic) % 4294967296
            * ((getDPIForWindow os winId).run s).1 + 48) / 96) := by
  have main : ((getSystemMetric os k winId SystemMetric.ResizeBorderThickness dpiScale).run s).1 =
      if dpiScale then
        toU32 (qRound ((QReal.ofInt
          (((if ((isCompositionEnabled os).run s).1 then k.kDefaultResizeBorderThicknessAero
            else k.kDefaultResizeBorderThicknessClassic) % 4294967296 : Nat) : Int)).mul
          ((QReal.ofInt ((getDPIForWindow os winId).run s).1).div
            (QReal.ofInt USER_DEFAULT_SCREEN_DPI))))
      else (if ((isCompositionEnabled os).run s).1 then k.kDefaultResizeBorderThicknessAero
        else k.kDefaultResizeBorderThicknessClassic) % 4294967296 := by
    rw [getSystemMetric_unfold]
    cases dpiScale
    · simp only [Bool.false_eq_true, if_false] at hsize hpad
      have h1 := (steady___GetSystemMetricsForDpi os SM_CXSIZEFRAME USER_DEFAULT_SCREEN_DPI).1 s
      have e2 := ((steady___GetSystemMetricsForDpi os SM_CXPADDEDBORDER
        USER_DEFAULT_SCREEN_DPI).2 _ s h1).trans hpad
      have h2 := ((steady___GetSystemMetricsForDpi os SM_CXPADDEDBORDER
        USER_DEFAULT_SCREEN_DPI).1 _).trans h1
      have e3 := (steady_isCompositionEnabled os).2 _ s h2
      simp only [getSystemMetricBody, h, if_false, run_bind, run_ite, run_pure,
        Bool.false_eq_true, hsize, e2, e3, Nat.add_zero, Nat.zero_mod, gt_iff_lt, Nat.lt_irrefl]
    · simp only [if_true] at hsize hpad
      have h0 := (steady_getDPIForWindow os winId).1 s
      have e1 := ((steady___GetSystemMetricsForDpi os SM_CXSIZEFRAME
        ((getDPIForWindow os winId).run s).1).2 _ s h0).trans hsize
      have h1 := ((steady___GetSystemMetricsForDpi os SM_CXSIZEFRAME
        ((getDPIForWindow os winId).run s).1).1 _).trans h0
      have e2 := ((steady___GetSystemMetricsForDpi os SM_CXPADDEDBORDER
        ((getDPIForWindow os winId).run s).1).2 _ s h1).trans hpad
      have h2 := ((steady___GetSystemMetricsForDpi os SM_CXPADDEDBORDER
        ((getDPIForWindow os winId).run s).1).1 _).trans h1
      have e3 := (steady_isCompositionEnabled os).2 _ s h2
      simp only [getSystemMetricBody, h, if_false, if_true, run_bind, run_ite, run_pure, e1, e2,
        e3, Nat.add_zero, Nat.zero_mod, gt_iff_lt, Nat.lt_irrefl]
  refine ⟨main, fun hs hc hb ht => ?_⟩
  have hdpi := getDPIForWindow_lt os winId s
  rw [main, hs, if_pos rfl]
  generalize (if ((isCompositionEnabled os).run s).1 = true
    then k.kDefaultResizeBorderThicknessAero
    else k.kDefaultResizeBorderThicknessClassic) % 4294967296 = c at hc hb ht ⊢
  generalize ((getDPIForWindow os winId).run s).1 = dpi at hdpi hb ht ⊢
  have hq : qRound ((QReal.ofInt c).mul ((QReal.ofInt dpi).div
      (QReal.ofInt USER_DEFAULT_SCREEN_DPI))) = (((c * dpi + 48) / 96 : Nat) : Int) := by
    rcases ht with h3 | hn
    · exact qRound_scaled c dpi h3 hdpi (by omega)
    · exact qRound_scaled_of_not_tie c dpi hc hdpi hb hn
  rw [hq, toU32_of_lt _ (by omega)]

/-- C21 amended, at instances.  Windows 7 at 192 DPI with composition on: the Aero constant 8
scaled gives `(8 * 192 + 48) / 96 = 16`, unscaled 8.  With an Aero constant of 57 at 208 DPI
the scaled value is 123: `57 * 208 / 96` is 123.5, but `208 / 96.0` is rounded down and the
`double` product falls just below the half. -/
theorem resizeBorderThickness_fallback_witness :
    ((1 : WId) ≠ 0 ∧
      ((getSystemMetric win7At192NoMetrics sampleConstants 1 SystemMetric.ResizeBorderThickness
        true).run Proc.start).1 = 16) ∧
    ((getSystemMetric win7At192NoMetrics sampleConstants 1 SystemMetric.ResizeBorderThickness
      false).run Proc.start).1 = 8 ∧
    ((getSystemMetric win7At208NoMetrics constantsAero57 1 SystemMetric.ResizeBorderThickness
      true).run Proc.start).1 = 123 :=
  ⟨⟨by decide,
    (resizeBorderThickness_fallback win7At192NoMetrics sampleConstants 1 true Proc.start
      (by decide) (by decide) (by decide) (fun _ => by decide)).2 rfl (by decide) (by decide)
      (Or.inl (by decide))⟩,
   ((resizeBorderThickness_fallback win7At192NoMetrics sampleConstants 1 false Proc.start
      (by decide) (by decide) (by decide) (fun h => absurd h (by decide))).1).trans (by decide),
   ((resizeBorderThickness_fallback win7At208NoMetrics constantsAero57 1 true Proc.start
      (by decide) (by decide) (by decide) (fun _ => by decide)).1).trans (by decide)⟩

/-- C22 as stated fails for a DPI-unaware process: with the raw metric 57 and the requested
DPI 208 the quotient `57 * 208 / 96` is exactly 123.5, which rounds to 124, but the code
multiplies by the `double` `208 / 96.0`, which lies just below `13 / 6`, and returns 123. -/
theorem __GetSystemMetricsForDpi_rounding_counterexample :
    ((resolveGetSystemMetricsForDpi win7UnawareMetric57).run Proc.start).1 = false ∧
    win7UnawareMetric57.GetSystemMetrics SM_CYCAPTION = 57 ∧
    ((getDPIAwarenessForWindow win7UnawareMetric57 0).run Proc.start).1
      = DPIAwareness.Unaware ∧
    2 * (57 * 208) = (2 * 123 + 1) * 96 ∧
    (57 * 208 + 48) / 96 = 124 ∧
    ((__GetSystemMetricsForDpi win7UnawareMetric57 SM_CYCAPTION 208).run Proc.start).1
      = 123 := by
  decide

/-- C22, amended. In the manual-correction path of `__GetSystemMetricsForDpi` (the per-DPI
entry point is not bound after the binding block, `GetSystemMetrics` gives a raw metric
`v > 0`, the requested `dpi` is not 0), with the awareness and the current DPI `c` of the
process as `getDPIAwarenessForWindow(null)` and `getDPIForWindow(null)` give them: a
DPI-unaware process gets `qRound(v * (dpi / 96.0))`, computed in `double` arithmetic (for
`v * dpi < 2^37`, so that the rounded value fits in `int`), which is
`v * dpi / 96` rounded to nearest, `(v * dpi + 48) / 96`, whenever `dpi` is a multiple of 3 or
`v * dpi / 96` is not half way between two integers (for `v < 2^17`, `v * dpi < 2^35`); a
process that is neither unaware nor of invalid awareness, with `c ≠ 0` and `c = dpi`, gets
exactly `v`; an invalid awareness gives 0; and `c = 0` gives 0 (the current DPI is only asked
for when the process is not unaware). -/
theorem __GetSystemMetricsForDpi_manual_correction (os : OS) (nIndex : Int) (dpi v : Nat)
    (s : Proc) (hdpi : dpi ≠ 0)
    (hfunc : ((resolveGetSystemMetricsForDpi os).run s).1 = false)
    (hv : os.GetSystemMetrics nIndex = (v : Int)) (hpos : 0 < v) (hint : v < 2147483648) :
    (((getDPIAwarenessForWindow os 0).run s).1 = DPIAwareness.Unaware →
      v * dpi < 137438953472 →
      ((__GetSystemMetricsForDpi os nIndex dpi).run s).1
        = toU32 (qRound ((QReal.ofInt v).mul
            ((QReal.ofInt dpi).div (QReal.ofInt USER_DEFAULT_SCREEN_DPI))))) ∧
    (((getDPIAwarenessForWindow os 0).run s).1 = DPIAwareness.Unaware →
      v < 131072 → dpi < 4294967296 → v * dpi < 34359738368 →
      (3 ∣ dpi ∨ (v * dpi + 48) % 96 ≠ 0) →
      ((__GetSystemMetricsForDpi os nIndex dpi).run s).1 = (v * dpi + 48) / 96) ∧
    (((getDPIAwarenessForWindow os 0).run s).1 ≠ DPIAwareness.Invalid →
      ((getDPIAwarenessForWindow os 0).run s).1 ≠ DPIAwareness.Unaware →
      ((getDPIForWindow os 0).run s).1 ≠ 0 → ((getDPIForWindow os 0).run s).1 = dpi →
      ((__GetSystemMetricsForDpi os nIndex dpi).run s).1 = v) ∧
    (((getDPIAwarenessForWindow os 0).run s).1 = DPIAwareness.Invalid →
      ((__GetSystemMetricsForDpi os nIndex dpi).run s).1 = 0) ∧
    (((getDPIAwarenessForWindow os 0).run s).1 ≠ DPIAwareness.Unaware →
      ((getDPIForWindow os 0).run s).1 = 0 →
      ((__GetSystemMetricsForDpi os nIndex dpi).run s).1 = 0) := by
  have main := manualCorrection_run os nIndex dpi v s hdpi hfunc hv hpos
  have hne : DPIAwareness.Unaware ≠ DPIAwareness.Invalid := by decide
  refine ⟨fun ha _ => ?_, fun ha hv17 hd32 hb ht => ?_, fun hi hu hc hcd => ?_, fun hi => ?_,
    fun hu hc => ?_⟩
  · rw [main, ha, if_neg hne, if_pos rfl]
  · have hq : qRound ((QReal.ofInt v).mul ((QReal.ofInt dpi).div
        (QReal.ofInt USER_DEFAULT_SCREEN_DPI))) = (((v * dpi + 48) / 96 : Nat) : Int) := by
      rcases ht with h3 | hn
      · exact qRound_scaled v dpi h3 hd32 (by omega)
      · exact qRound_scaled_of_not_tie v dpi hv17 hd32 hb hn
    rw [main, ha, if_neg hne, if_pos rfl, hq, toU32_of_lt _ (by omega)]
  · have heq : ((QReal.ofInt ((dpi : Nat) : Int)).div (QReal.ofInt USER_DEFAULT_SCREEN_DPI)).eq
        ((QReal.ofInt dpi).div (QReal.ofInt USER_DEFAULT_SCREEN_DPI)) = true := by
      simp [QReal.eq]
    rw [main, if_neg hi, if_neg hu, if_neg hc, hcd, if_pos heq, qRound_ofInt v (by omega),
      toU32_of_lt v (by omega)]
  · rw [main, if_pos hi]
  · rw [main]
    by_cases hi : ((getDPIAwarenessForWindow os 0).run s).1 = DPIAwareness.Invalid
    · rw [if_pos hi]
    · rw [if_neg hi, if_neg hu, if_pos hc]

/-- C22 amended, at instances.  Windows 7 with a process that is not DPI aware, raw caption
height 22, requested DPI 144: `(22 * 144 + 48) / 96 = 33`; with the raw metric 57 and the
requested DPI 208 the `double` computation gives 123.  Windows 7 at 192 DPI with a
system-aware process and requested DPI 192: the raw value 22, not 44.  Windows 8.1 with a
failing awareness query: 0.  Windows 8.1 whose monitor reports a DPI of 0: 0. -/
theorem __GetSystemMetricsForDpi_manual_correction_witness :
    (((getDPIAwarenessForWindow win7Unaware 0).run Proc.start).1 = DPIAwareness.Unaware ∧
      ((__GetSystemMetricsForDpi win7Unaware SM_CYCAPTION 144).run Proc.start).1 = 33) ∧
    ((__GetSystemMetricsForDpi win7UnawareMetric57 SM_CYCAPTION 208).run Proc.start).1 = 123 ∧
    (((getDPIAwarenessForWindow win7At192 0).run Proc.start).1 = DPIAwareness.System ∧
      ((getDPIForWindow win7At192 0).run Proc.start).1 = 192 ∧
      ((__GetSystemMetricsForDpi win7At192 SM_CYCAPTION 192).run Proc.start).1 = 22) ∧
    (((getDPIAwarenessForWindow win81AwarenessFails 0).run Proc.start).1
        = DPIAwareness.Invalid ∧
      ((__GetSystemMetricsForDpi win81AwarenessFails SM_CYCAPTION 120).run Proc.start).1 = 0) ∧
    (((getDPIForWindow win81ZeroMonitorDpi 0).run Proc.start).1 = 0 ∧
      ((__GetSystemMetricsForDpi win81ZeroMonitorDpi SM_CYCAPTION 120).run Proc.start).1 = 0) :=
  ⟨⟨by decide,
      ((__GetSystemMetricsForDpi_manual_correction win7Unaware SM_CYCAPTION 144 22 Proc.start
        (by decide) (by decide) (by decide) (by decide) (by decide)).2.1 (by decide)
        (by decide) (by decide) (by decide) (Or.inl (by decide))).trans (by decide)⟩,
    ((__GetSystemMetricsForDpi_manual_correction win7UnawareMetric57 SM_CYCAPTION 208 57
        Proc.start (by decide) (by decide) (by decide) (by decide) (by decide)).1
        (by decide) (by decide)).trans (by decide),
    ⟨by decide, by decide,
      (__GetSystemMetricsForDpi_manual_correction win7At192 SM_CYCAPTION 192 22 Proc.start
        (by decide) (by decide) (by decide) (by decide) (by decide)).2.2.1 (by decide)
        (by decide) (by decide) (by decide)⟩,
    ⟨by decide,
      (__GetSystemMetricsForDpi_manual_correction win81AwarenessFails SM_CYCAPTION 120 22
        Proc.start (by decide) (by decide) (by decide) (by decide) (by decide)).2.2.2.1
        (by decide)⟩,
    ⟨by decide,
      (__GetSystemMetricsForDpi_manual_correction win81ZeroMonitorDpi SM_CYCAPTION 120 22
        Proc.start (by decide) (by decide) (by decide) (by decide) (by decide)).2.2.2.2
        (by decide) (by decide)⟩⟩

/-- C23. From the 19H1 tier on and with high contrast off: when the personalization key holds
no `AppsUseLightTheme` value the read yields the default 0, which converts, and
`getSystemTheme` returns `Dark`; in general it returns `Light` exactly when the value is
present and either converts to a non-zero unsigned integer or does not convert, and `Dark`
otherwise. -/
theorem getSystemTheme_absent_value_dark (os : OS) (s : Proc)
    (h19 : __IsWin1019H1OrGreater os = true)
    (hhc : ((__IsHighContrastModeEnabled os).run s).1 = false) :
    (os.registry RegKey.Personalize RegName.AppsUseLightTheme = none →
      registryToUInt (os.registry RegKey.Personalize RegName.AppsUseLightTheme) = (0, true) ∧
      ((getSystemTheme os).run s).1 = SystemTheme.Dark) ∧
    (((getSystemTheme os).run s).1 = SystemTheme.Light ↔
      (∃ n, os.registry RegKey.Personalize RegName.AppsUseLightTheme = some (RegData.uint n)
          ∧ n % 4294967296 ≠ 0)
        ∨ os.registry RegKey.Personalize RegName.AppsUseLightTheme
          = some RegData.notConvertible) ∧
    (((getSystemTheme os).run s).1 = SystemTheme.Dark ∨
      ((getSystemTheme os).run s).1 = SystemTheme.Light) := by
  have hd := run___ShouldAppsUseDarkMode_19H1 os h19 ((__IsHighContrastModeEnabled os).run s).2
  have main : ((getSystemTheme os).run s).1 =
      if ((registryToUInt (os.registry RegKey.Personalize RegName.AppsUseLightTheme)).2
        && (registryToUInt (os.registry RegKey.Personalize RegName.AppsUseLightTheme)).1 == 0)
          = true
      then SystemTheme.Dark else SystemTheme.Light := by
    simp only [getSystemTheme, run_bind, run_ite, run_pure, hhc, Bool.false_eq_true, if_false,
      hd]
    split <;> rfl
  rw [main]
  cases hreg : os.registry RegKey.Personalize RegName.AppsUseLightTheme with
  | none => simp [registryToUInt]
  | some d =>
    cases d with
    | uint n =>
      by_cases hn : n % 4294967296 = 0 <;> simp [registryToUInt, hn]
    | notConvertible => simp [registryToUInt]

/-- C23, at instances on Windows 10 22H2 with high contrast off: no `AppsUseLightTheme` value
gives `Dark`; the value 1 gives `Light`; a value that does not convert gives `Light`. -/
theorem getSystemTheme_absent_value_dark_witness :
    (__IsWin1019H1OrGreater win10NoThemeValue = true ∧
      ((__IsHighContrastModeEnabled win10NoThemeValue).run Proc.start).1 = false ∧
      win10NoThemeValue.registry RegKey.Personalize RegName.AppsUseLightTheme = none ∧
      ((getSystemTheme win10NoThemeValue).run Proc.start).1 = SystemTheme.Dark) ∧
    ((getSystemTheme win10LightTheme).run Proc.start).1 = SystemTheme.Light ∧
    ((getSystemTheme win10UnreadableThemeValue).run Proc.start).1 = SystemTheme.Light :=
  ⟨⟨by decide, by decide, rfl,
      ((getSystemTheme_absent_value_dark win10NoThemeValue Proc.start (by decide)
        (by decide)).1 rfl).2⟩,
    (getSystemTheme_absent_value_dark win10LightTheme Proc.start (by decide)
      (by decide)).2.1.2 (Or.inl ⟨1, rfl, by decide⟩),
    (getSystemTheme_absent_value_dark win10UnreadableThemeValue Proc.start (by decide)
      (by decide)).2.1.2 (Or.inr rfl)⟩

end FramelessHelper
